import Mathlib

set_option linter.unusedSectionVars false
set_option linter.unusedVariables false
set_option linter.unreachableTactic false
set_option linter.unusedTactic false

/-!
Verification development for the chainerx batch-normalization routines
(`chainerx/routines/normalization.cc`).

Arrays are modelled shallowly: a dtype tag, a shape, and the stored values
as a function of the multi-index.  Numeric conversion between dtypes is
idealised as exact (a cast retags the array, the mathematical value is
kept), so the theorems below are about the exact-arithmetic content of the
routines; the square-root function of the element type is an abstract
parameter `sq`.
-/

namespace ChainerX

/-- Element dtypes of chainerx arrays (`dtype.h` is outside the sources at
hand; batch normalization only distinguishes the three float widths plus
non-float kinds used for kind checking). -/
inductive Dtype where
  | bool8
  | int8
  | int16
  | int32
  | int64
  | uint8
  | float16
  | float32
  | float64
deriving DecidableEq, Repr

/-- `GetKind(dtype) == DtypeKind::kFloat` from the source, as a Bool. -/
def Dtype.isFloat : Dtype → Bool
  | .float16 => true
  | .float32 => true
  | .float64 => true
  | _ => false

/-- Width in bits of a floating dtype (0 for the non-float kinds). -/
def Dtype.floatWidth : Dtype → Nat
  | .float16 => 16
  | .float32 => 32
  | .float64 => 64
  | _ => 0

/-- Modelled from the spec: the host dtype-promotion rules
(`chainerx::ResultType` of routines/type_util.h is outside src/).  The
spec says the intermediate precision is "the common result type" of the
operands; among floating dtypes that is the widest one. -/
def promote2 (a b : Dtype) : Dtype := if a.floatWidth < b.floatWidth then b else a

/-- `ResultType(x, gamma, beta)`. -/
def ResultType3 (a b c : Dtype) : Dtype := promote2 (promote2 a b) c

/-- `ResultType(x, gamma, beta, mean, var)`. -/
def ResultType5 (a b c d e : Dtype) : Dtype := promote2 (promote2 (promote2 (promote2 a b) c) d) e

/-- Shallow model of `chainerx::Array`: dtype tag, shape, and the stored
values as a function of the multi-index.  Out-of-range indices return junk
values; statements quantify over valid indices. -/
@[ext]
structure NdArray (α : Type) where
  dtype : Dtype
  shape : List Nat
  data : List Nat → α

/-- `Array::GetTotalSize()`. -/
def NdArray.size {α : Type} (a : NdArray α) : Nat := a.shape.prod

/-- A multi-index is valid for a shape when it has the same rank and is
componentwise below the extents. -/
def validIdx (s idx : List Nat) : Prop :=
  idx.length = s.length ∧ ∀ i, i < s.length → idx.getD i 0 < s.getD i 0

instance (s idx : List Nat) : Decidable (validIdx s idx) := by
  unfold validIdx; infer_instance

/-- Broadcast a result index into an operand of shape `shape`: a dimension
of extent 1 is read at position 0, any other dimension at the result
coordinate. -/
def bcIdx (shape idx : List Nat) : List Nat :=
  List.zipWith (fun d i => if d = 1 then 0 else i) shape idx

/-- Combined extent of two broadcast dimensions: 1 stretches to the
other extent. -/
def bcDim (a b : Nat) : Nat := if a = 1 then b else a

/-- Broadcast shape of two same-rank operands. -/
def bcShape (s t : List Nat) : List Nat := List.zipWith bcDim s t

/-- `internal::ReduceShape(shape, axes, keepdims=true)`: every selected
axis is collapsed to extent 1. -/
def reduceShape (s : List Nat) (ax : List Nat) : List Nat :=
  (List.range s.length).map fun i => if i ∈ ax then 1 else s.getD i 0

/-- The index into a keepdims-reduced array corresponding to a full
index: selected axes are read at 0. -/
def reduceIdx (ax idx : List Nat) : List Nat :=
  (List.range idx.length).map fun i => if i ∈ ax then 0 else idx.getD i 0

/-- Number of elements summed over by a reduction over `ax`. -/
def axisCount (s : List Nat) (ax : List Nat) : Nat :=
  ((List.range s.length).map fun i => if i ∈ ax then s.getD i 0 else 1).prod

/-- All assignments of coordinates to the reduced axes (other positions
pinned to 0): the cartesian product of `range s.i` over `i ∈ ax`. -/
def cartProd : List (List Nat) → List (List Nat)
  | [] => [[]]
  | l :: ls => l.flatMap fun v => (cartProd ls).map fun t => v :: t

/-- Per-position coordinate ranges for a reduction over `ax`. -/
def axisRanges (s : List Nat) (ax : List Nat) : List (List Nat) :=
  (List.range s.length).map fun i => if i ∈ ax then List.range (s.getD i 0) else [0]

/-- Enumeration of the summation domain of a reduction over `ax`. -/
def axisTuples (s : List Nat) (ax : List Nat) : List (List Nat) :=
  cartProd (axisRanges s ax)

/-- Merge a reduced index `j` with a summation tuple `k`: positions in
`ax` come from `k`, the others from `j`. -/
def mergeIdx (ax : List Nat) (n : Nat) (j k : List Nat) : List Nat :=
  (List.range n).map fun i => if i ∈ ax then k.getD i 0 else j.getD i 0

section Ops

variable {α : Type} [Field α]

/-- Elementwise binary operation with same-rank broadcasting, with the
promoted dtype, as chainerx arithmetic does. -/
def map2 (f : α → α → α) (a b : NdArray α) : NdArray α where
  dtype := promote2 a.dtype b.dtype
  shape := bcShape a.shape b.shape
  data := fun idx => f (a.data (bcIdx a.shape idx)) (b.data (bcIdx b.shape idx))

/-- Elementwise unary operation (dtype and shape kept). -/
def map1 (f : α → α) (a : NdArray α) : NdArray α :=
  { a with data := fun idx => f (a.data idx) }

/-- `array + scalar` (dtype and shape of the array are kept, as for a
float array with a float scalar). -/
def addS (a : NdArray α) (s : α) : NdArray α := map1 (fun v => v + s) a

/-- `scalar * array`. -/
def smulA (s : α) (a : NdArray α) : NdArray α := map1 (fun v => s * v) a

/-- `array * scalar`. -/
def mulS (a : NdArray α) (s : α) : NdArray α := map1 (fun v => v * s) a

/-- Unary negation `-array`. -/
def negA (a : NdArray α) : NdArray α := map1 (fun v => -v) a

/-- `chainerx::Sqrt`, elementwise via the abstract square root `sq`. -/
def sqrtA (sq : α → α) (a : NdArray α) : NdArray α := map1 sq a

/-- `chainerx::Reciprocal`. -/
def Reciprocal (a : NdArray α) : NdArray α := map1 (fun v => 1 / v) a

/-- `Array::AsType`: numeric conversion is idealised as exact, so a cast
only retags the dtype. -/
def AsType (d : Dtype) (a : NdArray α) : NdArray α := { a with dtype := d }

/-- `a.dtype() == d ? a : a.AsType(d)` — cast only when the dtype
differs. -/
def castIfNeeded (d : Dtype) (a : NdArray α) : NdArray α :=
  if a.dtype = d then a else AsType d a

/-- `Device::AsType(src, out)`: store `src` elementwise into the
caller-provided buffer `out`, converting to `out`'s dtype. -/
def storeTo (out src : NdArray α) : NdArray α where
  dtype := out.dtype
  shape := out.shape
  data := fun idx => src.data idx

/-- `Array::Reshape` (row-major reindexing); flat offset of an index. -/
def flatIdx : List Nat → List Nat → Nat
  | d :: ds, i :: is => i * (d :: ds).tail.prod + flatIdx ds is
  | _, _ => 0

/-- Multi-index of a row-major flat offset. -/
def unflatIdx : List Nat → Nat → List Nat
  | [], _ => []
  | _ :: ds, k => (k / ds.prod) :: unflatIdx ds (k % ds.prod)

/-- `Array::Reshape`. -/
def Reshape (a : NdArray α) (ns : List Nat) : NdArray α where
  dtype := a.dtype
  shape := ns
  data := fun idx => a.data (unflatIdx a.shape (flatIdx ns idx))

/-- `ReshapeOrIdentity` from the source: reshape only when the shape
differs. -/
def ReshapeOrIdentity (a : NdArray α) (ns : List Nat) : NdArray α :=
  if a.shape = ns then a else Reshape a ns

/-- `chainerx::Zeros`. -/
def ZerosArr (s : List Nat) (d : Dtype) : NdArray α where
  dtype := d
  shape := s
  data := fun _ => 0

/-- `chainerx::EmptyLike`: an uninitialised buffer of `a`'s shape and
dtype (contents arbitrary; modelled as 0, and never read before being
overwritten). -/
def EmptyLike (a : NdArray α) : NdArray α where
  dtype := a.dtype
  shape := a.shape
  data := fun _ => 0

/-- Value at reduced index `j` of the keepdims sum of the pointwise
family `f` over the axes `ax` of shape `s`. -/
def axSum (s ax j : List Nat) (f : List Nat → α) : α :=
  ((axisTuples s ax).map fun k => f (mergeIdx ax s.length j k)).sum

/-- Keepdims sum over the axes `ax`. -/
def sumAxes (a : NdArray α) (ax : List Nat) : NdArray α where
  dtype := a.dtype
  shape := reduceShape a.shape ax
  data := fun j => axSum a.shape ax j a.data

/-- `chainerx::Mean(a, ax, keepdims=true)`: sum divided by the element
count of the reduction. -/
def Mean (a : NdArray α) (ax : List Nat) : NdArray α :=
  { sumAxes a ax with data := fun j => (sumAxes a ax).data j / (axisCount a.shape ax : α) }

/-- `chainerx::Var(a, ax, keepdims=true)`: population variance, the mean
of the squared deviations from the mean. -/
def Var (a : NdArray α) (ax : List Nat) : NdArray α :=
  Mean (map2 (fun u v => u * v) (map2 (fun u v => u - v) a (Mean a ax))
    (map2 (fun u v => u - v) a (Mean a ax))) ax

/-- In-place `a *= s` (scalar): dtype and shape of `a` are kept. -/
def imulS (a : NdArray α) (s : α) : NdArray α :=
  { a with data := fun idx => a.data idx * s }

/-- In-place `a += b`: result keeps `a`'s dtype and shape, `b` broadcast
into `a`. -/
def iadd (a b : NdArray α) : NdArray α :=
  { a with data := fun idx => a.data idx + b.data (bcIdx b.shape idx) }

end Ops

/-- The error kinds raised by the preprocessor.  `DtypeError` and
`DimensionError` are thrown in the source at hand; the axis error comes
from `internal::GetSortedAxes` (outside src/, modelled from the spec). -/
inductive BNError where
  | dtypeError
  | dimensionError
  | axisError
deriving DecidableEq, Repr

/-- Modelled from the spec: axis canonicalization
(`internal::GetSortedAxes` of axes.cc is outside src/).  Negative indices
are resolved against the rank, indices are validated in range and
duplicate-free, and the result is sorted ascending. -/
def GetSortedAxes (axis : List Int) (ndim : Nat) : Except BNError (List Nat) :=
  let resolved := axis.map fun a => if a < 0 then a + (ndim : Int) else a
  if resolved.all fun a => 0 ≤ a ∧ a < (ndim : Int) then
    let nats := resolved.map Int.toNat
    if nats.Nodup then .ok (nats.mergeSort (· ≤ ·)) else .error .axisError
  else .error .axisError

/-- Resolution of the optional axis argument: absent means `{0}`. -/
def ResolveAxes (axis : Option (List Int)) (ndim : Nat) : Except BNError (List Nat) :=
  match axis with
  | some a => GetSortedAxes a ndim
  | none => .ok [0]

section Routines

variable {α : Type} [Field α]

/-- Result of `PreprocessBatchNorm`: the four auxiliaries reshaped to the
reduced shape, plus the sorted axes. -/
structure PreprocessBatchNormResult (α : Type) where
  gamma : NdArray α
  beta : NdArray α
  mean : NdArray α
  var : NdArray α
  sortedAxis : List Nat

/-- `CheckBatchNormSupportedKind`, as a Bool test (the source throws
`DtypeError` when it fails). -/
def CheckBatchNormSupportedKind (a : NdArray α) : Bool := a.dtype.isFloat

/-- `PreprocessBatchNorm` from the source: kind checks on the five
inputs, axis resolution, size checks of the four auxiliaries against the
reduced size, then reshaping to the reduced shape. -/
def PreprocessBatchNorm (x gamma beta mean var : NdArray α) (axis : Option (List Int)) :
    Except BNError (PreprocessBatchNormResult α) :=
  if ¬ CheckBatchNormSupportedKind x then .error .dtypeError
  else if ¬ CheckBatchNormSupportedKind gamma then .error .dtypeError
  else if ¬ CheckBatchNormSupportedKind beta then .error .dtypeError
  else if ¬ CheckBatchNormSupportedKind mean then .error .dtypeError
  else if ¬ CheckBatchNormSupportedKind var then .error .dtypeError
  else
    match ResolveAxes axis x.shape.length with
    | .error e => .error e
    | .ok sortedAxis =>
      let reduced := reduceShape x.shape sortedAxis
      let reducedSize := reduced.prod
      if gamma.size ≠ reducedSize then .error .dimensionError
      else if beta.size ≠ reducedSize then .error .dimensionError
      else if mean.size ≠ reducedSize then .error .dimensionError
      else if var.size ≠ reducedSize then .error .dimensionError
      else .ok ⟨ReshapeOrIdentity gamma reduced, ReshapeOrIdentity beta reduced,
                ReshapeOrIdentity mean reduced, ReshapeOrIdentity var reduced, sortedAxis⟩

/-- `ArrayOrZeros` from the source: an absent optional gradient becomes a
zero array of the template's shape; a present one is cast to `dtype`
when needed. -/
def ArrayOrZeros (arr : Option (NdArray α)) (zerosTemplate : NdArray α) (d : Dtype) : NdArray α :=
  match arr with
  | some a => if a.dtype = d then a else AsType d a
  | none => ZerosArr zerosTemplate.shape d

/-- `ApplyBatchNorm` from the source: casts the operands to
`intermDtype`, computes `inv_std = Reciprocal(Sqrt(var + eps))` and
`out = (x - mean) * inv_std * gamma + beta`, stores `out` into the
caller-provided buffer, and returns the written buffer together with
`inv_std` (the C++ writes through `out` and returns only `inv_std`). -/
def ApplyBatchNorm (sq : α → α) (x gamma beta mean var : NdArray α) (eps : α)
    (out : NdArray α) (intermDtype : Dtype) : NdArray α × NdArray α :=
  let xCast := AsType intermDtype x
  let gammaCast := AsType intermDtype gamma
  let betaCast := AsType intermDtype beta
  let meanCast := AsType intermDtype mean
  let varCast := AsType intermDtype var
  let invStd := Reciprocal (sqrtA sq (addS varCast eps))
  let outCast := map2 (fun u v => u + v)
    (map2 (fun u v => u * v) (map2 (fun u v => u * v) (map2 (fun u v => u - v) xCast meanCast) invStd) gammaCast)
    betaCast
  (storeTo out outCast, invStd)

/-- The captured state `(x_mean, x_inv_std)` of a training forward. -/
structure GenericBatchNormState (α : Type) where
  xMean : NdArray α
  xInvStd : NdArray α

/-- Result of a training forward call: the filled output buffer, the
updated running statistics, and the captured state when requested. -/
structure BNForwardOut (α : Type) where
  out : NdArray α
  runningMean : NdArray α
  runningVar : NdArray α
  state : Option (GenericBatchNormState α)

/-- `GenericBatchNormForwardOp::Call` from the source.  In-place mutation
of the running statistics is modelled by returning the updated arrays;
`captureState` models `state.has_value()`. -/
def GenericBatchNormForwardOpCall (sq : α → α) (x gamma beta runningMean runningVar : NdArray α)
    (eps decay : α) (ax : List Nat) (out : NdArray α) (captureState : Bool) : BNForwardOut α :=
  let intermDtype := ResultType3 x.dtype gamma.dtype beta.dtype
  let xCast := castIfNeeded intermDtype x
  let xMean := Mean xCast ax
  let xVar := Var xCast ax
  let applied := ApplyBatchNorm sq x gamma beta xMean xVar eps out intermDtype
  let invDecay := 1 - decay
  let n := x.size / gamma.size
  let rm := iadd (imulS runningMean decay) (AsType runningMean.dtype (smulA invDecay xMean))
  let adjust := (n : α) / ((max (n - 1) 1 : Nat) : α)
  let rv := iadd (imulS runningVar decay) (AsType runningVar.dtype (smulA (invDecay * adjust) xVar))
  { out := applied.1
    runningMean := rm
    runningVar := rv
    state := if captureState then some ⟨xMean, applied.2⟩ else none }

/-- Result of a first-order backward call: the three filled gradient
buffers. -/
structure BNBackwardOut (α : Type) where
  gx : NdArray α
  ggamma : NdArray α
  gbeta : NdArray α

/-- The local `x_hat = (x - x_mean) * x_inv_std` of
`GenericBatchNormBackwardOp::Call` (operands cast to the captured
intermediate dtype `st.xMean.dtype`). -/
def bnXHat (x : NdArray α) (st : GenericBatchNormState α) : NdArray α :=
  map2 (fun u v => u * v) (map2 (fun u v => u - v) (AsType st.xMean.dtype x) st.xMean) st.xInvStd

/-- The local `ggamma_cast = (gout_cast * x_hat).Sum(axis, true)`. -/
def bnGGammaCast (x gout : NdArray α) (st : GenericBatchNormState α) (ax : List Nat) : NdArray α :=
  sumAxes (map2 (fun u v => u * v) (AsType st.xMean.dtype gout) (bnXHat x st)) ax

/-- The local `gbeta_cast = gout_cast.Sum(axis, true)`. -/
def bnGBetaCast (gout : NdArray α) (st : GenericBatchNormState α) (ax : List Nat) : NdArray α :=
  sumAxes (AsType st.xMean.dtype gout) ax

/-- The local
`gx_cast = (gamma_cast * x_inv_std) * (gout_cast - (x_hat * ggamma_cast + gbeta_cast) * inv_n)`
with `inv_n = 1 / (x.size / gamma.size)`. -/
def bnGxCast (x gamma gout : NdArray α) (st : GenericBatchNormState α) (ax : List Nat) :
    NdArray α :=
  map2 (fun u v => u * v)
    (map2 (fun u v => u * v) (AsType st.xMean.dtype gamma) st.xInvStd)
    (map2 (fun u v => u - v) (AsType st.xMean.dtype gout)
      (mulS (map2 (fun u v => u + v) (map2 (fun u v => u * v) (bnXHat x st) (bnGGammaCast x gout st ax))
          (bnGBetaCast gout st ax))
        ((1 : α) / ((x.size / gamma.size : Nat) : α))))

/-- `GenericBatchNormBackwardOp::Call` from the source.  The `eps`
parameter is unused, mirroring the commented-out parameter in the C++
signature (`x_inv_std` already carries the information of eps); the
locals are the named definitions above. -/
def GenericBatchNormBackwardOpCall (x gamma gout : NdArray α) (_eps : α) (ax : List Nat)
    (gxBuf ggammaBuf gbetaBuf : NdArray α) (st : GenericBatchNormState α) : BNBackwardOut α :=
  { gx := storeTo gxBuf (bnGxCast x gamma gout st ax)
    ggamma := storeTo ggammaBuf (bnGGammaCast x gout st ax)
    gbeta := storeTo gbetaBuf (bnGBetaCast gout st ax) }

/-- `GenericFixedBatchNormForwardOp::Call` from the source. -/
def GenericFixedBatchNormForwardOpCall (sq : α → α) (x gamma beta mean var : NdArray α)
    (eps : α) (out : NdArray α) : NdArray α :=
  let intermDtype := ResultType5 x.dtype gamma.dtype beta.dtype mean.dtype var.dtype
  (ApplyBatchNorm sq x gamma beta mean var eps out intermDtype).1

/-- The three input gradients produced by the second-order backward
closure, in slot order: gradient of `x`, of `gamma`, of `gout`. -/
structure BN2Out (α : Type) where
  gradX : NdArray α
  gradGamma : NdArray α
  gradGout : NdArray α

/-- The values reaching the nested (second-order) backward closure of
`BatchNorm`: the retained inputs `x`, `gamma_reshaped`, `gout`, the eps
captured by the closure, the optional upstream gradients
`bctx2.output_grad(0..2)`, and the retained first-order outputs `gx`,
`ggamma`. -/
structure BN2In (α : Type) where
  xRet : NdArray α
  gammaRet : NdArray α
  goutRet : NdArray α
  eps : α
  ggxOpt : Option (NdArray α)
  gggammaOpt : Option (NdArray α)
  ggbetaOpt : Option (NdArray α)
  gxRet : NdArray α
  ggammaRet : NdArray α

/-- `interm_dtype = ResultType(gout_retained, x_retained, gamma_reshaped_retained)`. -/
def bn2Interm (q : BN2In α) : Dtype := ResultType3 q.goutRet.dtype q.xRet.dtype q.gammaRet.dtype

/-- The local `x = x_retained.AsType(interm_dtype, false)`. -/
def bn2X (q : BN2In α) : NdArray α := AsType (bn2Interm q) q.xRet

/-- The local `gamma_reshaped = gamma_reshaped_retained.AsType(interm_dtype, false)`. -/
def bn2Gamma (q : BN2In α) : NdArray α := AsType (bn2Interm q) q.gammaRet

/-- The local `gout = gout_retained.AsType(interm_dtype, false)`. -/
def bn2Gout (q : BN2In α) : NdArray α := AsType (bn2Interm q) q.goutRet

/-- The local `ggx = ArrayOrZeros(bctx2.output_grad(0), x, interm_dtype)`. -/
def bn2Ggx (q : BN2In α) : NdArray α := ArrayOrZeros q.ggxOpt (bn2X q) (bn2Interm q)

/-- The local `gggamma = ArrayOrZeros(bctx2.output_grad(1), gamma_reshaped, interm_dtype)`. -/
def bn2Gggamma (q : BN2In α) : NdArray α := ArrayOrZeros q.gggammaOpt (bn2Gamma q) (bn2Interm q)

/-- The local `ggbeta = ArrayOrZeros(bctx2.output_grad(2), gamma_reshaped, interm_dtype)`. -/
def bn2Ggbeta (q : BN2In α) : NdArray α := ArrayOrZeros q.ggbetaOpt (bn2Gamma q) (bn2Interm q)

/-- The local `x_mean = Mean(x, sorted_axis, true).AsType(interm_dtype, false)`. -/
def bn2XMean (q : BN2In α) (ax : List Nat) : NdArray α := AsType (bn2Interm q) (Mean (bn2X q) ax)

/-- The local `x_var = Var(x, sorted_axis, true).AsType(interm_dtype, false)`. -/
def bn2XVar (q : BN2In α) (ax : List Nat) : NdArray α := AsType (bn2Interm q) (Var (bn2X q) ax)

/-- The local `x_inv_std = Reciprocal(Sqrt(x_var + eps)).AsType(interm_dtype, false)`. -/
def bn2XInvStd (sq : α → α) (q : BN2In α) (ax : List Nat) : NdArray α :=
  AsType (bn2Interm q) (Reciprocal (sqrtA sq (addS (bn2XVar q ax) q.eps)))

/-- The local `gx = retained output 0, cast to interm_dtype`. -/
def bn2Gx (q : BN2In α) : NdArray α := AsType (bn2Interm q) q.gxRet

/-- The local `ggamma = retained output 1, cast to interm_dtype`. -/
def bn2Ggamma (q : BN2In α) : NdArray α := AsType (bn2Interm q) q.ggammaRet

/-- The local `n = x.GetTotalSize() / gamma_reshaped.GetTotalSize()`. -/
def bn2N (q : BN2In α) : Nat := (bn2X q).size / (bn2Gamma q).size

/-- The local `inv_n = 1.0 / n`. -/
def bn2InvN (q : BN2In α) : α := (1 : α) / ((bn2N q : Nat) : α)

/-- The local `r = (gx * ggx).Sum(sorted_axis, true)`. -/
def bn2R (q : BN2In α) (ax : List Nat) : NdArray α :=
  sumAxes (map2 (fun u v => u * v) (bn2Gx q) (bn2Ggx q)) ax

/-- The local `coeff = gamma_reshaped * x_inv_std`. -/
def bn2Coeff (sq : α → α) (q : BN2In α) (ax : List Nat) : NdArray α :=
  map2 (fun u v => u * v) (bn2Gamma q) (bn2XInvStd sq q ax)

/-- The local `coeff_m = coeff * inv_n`. -/
def bn2CoeffM (sq : α → α) (q : BN2In α) (ax : List Nat) : NdArray α :=
  mulS (bn2Coeff sq q ax) (bn2InvN q)

/-- The local `x_hat = (x - x_mean) * x_inv_std` of the second-order
closure. -/
def bn2XHat (sq : α → α) (q : BN2In α) (ax : List Nat) : NdArray α :=
  map2 (fun u v => u * v) (map2 (fun u v => u - v) (bn2X q) (bn2XMean q ax)) (bn2XInvStd sq q ax)

/-- The local `gggamma2 = gggamma - coeff_m * (x_hat * ggx).Sum(sorted_axis, true)`. -/
def bn2Gggamma2 (sq : α → α) (q : BN2In α) (ax : List Nat) : NdArray α :=
  map2 (fun u v => u - v) (bn2Gggamma q)
    (map2 (fun u v => u * v) (bn2CoeffM sq q ax)
      (sumAxes (map2 (fun u v => u * v) (bn2XHat sq q ax) (bn2Ggx q)) ax))

/-- The local `ggbeta2 = ggbeta - coeff_m * ggx.Sum(sorted_axis, true)`. -/
def bn2Ggbeta2 (sq : α → α) (q : BN2In α) (ax : List Nat) : NdArray α :=
  map2 (fun u v => u - v) (bn2Ggbeta q)
    (map2 (fun u v => u * v) (bn2CoeffM sq q ax) (sumAxes (bn2Ggx q) ax))

/-- The local `gx_hat2 = gggamma2 * gout - coeff_m * ggamma * ggx`. -/
def bn2GxHat2 (sq : α → α) (q : BN2In α) (ax : List Nat) : NdArray α :=
  map2 (fun u v => u - v) (map2 (fun u v => u * v) (bn2Gggamma2 sq q ax) (bn2Gout q))
    (map2 (fun u v => u * v) (map2 (fun u v => u * v) (bn2CoeffM sq q ax) (bn2Ggamma q)) (bn2Ggx q))

/-- The local `gstd2 = -x_inv_std * (r + (x_hat * gx_hat2).Sum(sorted_axis, true))`. -/
def bn2Gstd2 (sq : α → α) (q : BN2In α) (ax : List Nat) : NdArray α :=
  map2 (fun u v => u * v) (negA (bn2XInvStd sq q ax))
    (map2 (fun u v => u + v) (bn2R q ax)
      (sumAxes (map2 (fun u v => u * v) (bn2XHat sq q ax) (bn2GxHat2 sq q ax)) ax))

/-- The local `gmean2 = -x_inv_std * gx_hat2.Sum(sorted_axis, true)`. -/
def bn2Gmean2 (sq : α → α) (q : BN2In α) (ax : List Nat) : NdArray α :=
  map2 (fun u v => u * v) (negA (bn2XInvStd sq q ax)) (sumAxes (bn2GxHat2 sq q ax) ax)

/-- The local `gx2 = x_inv_std * gx_hat2 + inv_n * (gmean2 + x_hat * gstd2)`. -/
def bn2Gx2 (sq : α → α) (q : BN2In α) (ax : List Nat) : NdArray α :=
  map2 (fun u v => u + v) (map2 (fun u v => u * v) (bn2XInvStd sq q ax) (bn2GxHat2 sq q ax))
    (smulA (bn2InvN q)
      (map2 (fun u v => u + v) (bn2Gmean2 sq q ax)
        (map2 (fun u v => u * v) (bn2XHat sq q ax) (bn2Gstd2 sq q ax))))

/-- The local `ggout2 = gggamma2 * x_hat + ggbeta2 + coeff * ggx`. -/
def bn2Ggout2 (sq : α → α) (q : BN2In α) (ax : List Nat) : NdArray α :=
  map2 (fun u v => u + v)
    (map2 (fun u v => u + v) (map2 (fun u v => u * v) (bn2Gggamma2 sq q ax) (bn2XHat sq q ax))
      (bn2Ggbeta2 sq q ax))
    (map2 (fun u v => u * v) (bn2Coeff sq q ax) (bn2Ggx q))

/-- The local `ggamma2 = r / gamma_reshaped`. -/
def bn2Ggamma2 (q : BN2In α) (ax : List Nat) : NdArray α :=
  map2 (fun u v => u / v) (bn2R q ax) (bn2Gamma q)

/-- The nested (second-order) backward closure of `BatchNorm` from the
source: recomputes `x_mean, x_var, x_inv_std, x_hat` from the retained
inputs, replaces absent upstream gradients by zeros, computes the locals
above, casts each result to the dtype of `x`, `gamma`, `gout`
respectively only when different, and assigns them to the input-gradient
slots of `x`, `gamma`, `gout` in that order. -/
def BatchNormDoubleBackward (sq : α → α) (q : BN2In α) (ax : List Nat) : BN2Out α :=
  { gradX :=
      if (bn2Gx2 sq q ax).dtype ≠ q.xRet.dtype then AsType q.xRet.dtype (bn2Gx2 sq q ax)
      else bn2Gx2 sq q ax
    gradGamma :=
      if (bn2Ggamma2 q ax).dtype ≠ q.gammaRet.dtype then AsType q.gammaRet.dtype (bn2Ggamma2 q ax)
      else bn2Ggamma2 q ax
    gradGout :=
      if (bn2Ggout2 sq q ax).dtype ≠ q.goutRet.dtype then AsType q.goutRet.dtype (bn2Ggout2 sq q ax)
      else bn2Ggout2 sq q ax }

/-- `chainerx::BatchNorm` entry point.  Exceptions unwind before the
mutation statements run, so mutation of the running statistics is
modelled by threading them through: on the error path they are returned
exactly as given (the updated arrays carry the reduced shape of the view
the op writes through). -/
def BatchNorm (sq : α → α) (x gamma beta runningMean runningVar : NdArray α) (eps decay : α)
    (axis : Option (List Int)) :
    Except BNError (NdArray α × Option (GenericBatchNormState α)) × NdArray α × NdArray α :=
  match PreprocessBatchNorm x gamma beta runningMean runningVar axis with
  | .error e => (.error e, runningMean, runningVar)
  | .ok res =>
    let out := EmptyLike x
    let fwd := GenericBatchNormForwardOpCall sq x res.gamma res.beta res.mean res.var eps decay
      res.sortedAxis out true
    (.ok (fwd.out, fwd.state), fwd.runningMean, fwd.runningVar)

/-- `chainerx::FixedBatchNorm` entry point: preprocess, then the fixed
forward op under a no-backprop scope; no running statistics, no state. -/
def FixedBatchNorm (sq : α → α) (x gamma beta mean var : NdArray α) (eps : α)
    (axis : Option (List Int)) : Except BNError (NdArray α) :=
  match PreprocessBatchNorm x gamma beta mean var axis with
  | .error e => .error e
  | .ok res =>
    let out := EmptyLike x
    .ok (GenericFixedBatchNormForwardOpCall sq x res.gamma res.beta res.mean res.var eps out)

end Routines

section IndexLemmas

/-- Extensionality for `List Nat` through `getD`. -/
theorem list_ext_getD {l1 l2 : List Nat} (hlen : l1.length = l2.length)
    (h : ∀ i, i < l1.length → l1.getD i 0 = l2.getD i 0) : l1 = l2 := by
  apply List.ext_getElem hlen
  intro i h1 h2
  have hi := h i h1
  rwa [List.getD_eq_getElem _ _ h1, List.getD_eq_getElem _ _ h2] at hi

theorem reduceShape_length (s ax : List Nat) : (reduceShape s ax).length = s.length := by
  simp [reduceShape]

theorem reduceIdx_length (ax idx : List Nat) : (reduceIdx ax idx).length = idx.length := by
  simp [reduceIdx]

theorem mergeIdx_length (ax : List Nat) (n : Nat) (j k : List Nat) :
    (mergeIdx ax n j k).length = n := by
  simp [mergeIdx]

theorem bcIdx_length (s idx : List Nat) : (bcIdx s idx).length = min s.length idx.length := by
  simp [bcIdx]

theorem bcShape_length (s t : List Nat) : (bcShape s t).length = min s.length t.length := by
  simp [bcShape]

theorem getD_range_map {β : Type} [Inhabited β] (f : Nat → β) (n i : Nat) (d : β) (h : i < n) :
    (((List.range n).map f).getD i d) = f i := by
  rw [List.getD_eq_getElem _ _ (by simpa using h)]
  simp

theorem reduceShape_getD (s ax : List Nat) (i : Nat) (h : i < s.length) :
    (reduceShape s ax).getD i 0 = if i ∈ ax then 1 else s.getD i 0 := by
  rw [reduceShape, getD_range_map _ _ _ _ h]

theorem reduceIdx_getD (ax idx : List Nat) (i : Nat) (h : i < idx.length) :
    (reduceIdx ax idx).getD i 0 = if i ∈ ax then 0 else idx.getD i 0 := by
  rw [reduceIdx, getD_range_map _ _ _ _ h]

theorem mergeIdx_getD (ax : List Nat) (n : Nat) (j k : List Nat) (i : Nat) (h : i < n) :
    (mergeIdx ax n j k).getD i 0 = if i ∈ ax then k.getD i 0 else j.getD i 0 := by
  rw [mergeIdx, getD_range_map _ _ _ _ h]

theorem bcIdx_getD (s idx : List Nat) (i : Nat) (h1 : i < s.length) (h2 : i < idx.length) :
    (bcIdx s idx).getD i 0 = if s.getD i 0 = 1 then 0 else idx.getD i 0 := by
  rw [bcIdx, List.getD_eq_getElem _ _ (by simp [List.length_zipWith]; omega)]
  rw [List.getElem_zipWith]
  rw [List.getD_eq_getElem _ _ h1, List.getD_eq_getElem _ _ h2]

theorem bcShape_getD (s t : List Nat) (i : Nat) (h1 : i < s.length) (h2 : i < t.length) :
    (bcShape s t).getD i 0 = bcDim (s.getD i 0) (t.getD i 0) := by
  rw [bcShape, List.getD_eq_getElem _ _ (by simp [List.length_zipWith]; omega)]
  rw [List.getElem_zipWith]
  rw [List.getD_eq_getElem _ _ h1, List.getD_eq_getElem _ _ h2]

theorem bcIdx_self {s idx : List Nat} (h : validIdx s idx) : bcIdx s idx = idx := by
  obtain ⟨hlen, hlt⟩ := h
  apply list_ext_getD
  · rw [bcIdx_length]; omega
  · intro i hi
    rw [bcIdx_length] at hi
    have h1 : i < s.length := by omega
    have h2 : i < idx.length := by omega
    rw [bcIdx_getD s idx i h1 h2]
    have := hlt i h1
    split
    · omega
    · rfl

theorem bcIdx_reduced {s idx : List Nat} (ax : List Nat) (h : validIdx s idx) :
    bcIdx (reduceShape s ax) idx = reduceIdx ax idx := by
  obtain ⟨hlen, hlt⟩ := h
  apply list_ext_getD
  · rw [bcIdx_length, reduceShape_length, reduceIdx_length]; omega
  · intro i hi
    rw [bcIdx_length, reduceShape_length] at hi
    have h1 : i < s.length := by omega
    have h2 : i < idx.length := by omega
    rw [bcIdx_getD _ _ i (by rw [reduceShape_length]; omega) h2,
      reduceShape_getD s ax i h1, reduceIdx_getD ax idx i h2]
    have := hlt i h1
    by_cases hax : i ∈ ax
    · simp [hax]
    · simp only [hax, if_false]
      split
      · omega
      · rfl

theorem bcShape_self (s : List Nat) : bcShape s s = s := by
  apply list_ext_getD
  · rw [bcShape_length]; omega
  · intro i hi
    rw [bcShape_length] at hi
    rw [bcShape_getD s s i (by omega) (by omega), bcDim]
    split <;> omega

theorem bcShape_reduced_right (s ax : List Nat) : bcShape s (reduceShape s ax) = s := by
  apply list_ext_getD
  · rw [bcShape_length, reduceShape_length]; omega
  · intro i hi
    rw [bcShape_length, reduceShape_length] at hi
    have h1 : i < s.length := by omega
    rw [bcShape_getD _ _ i h1 (by rw [reduceShape_length]; omega),
      reduceShape_getD s ax i h1]
    generalize s.getD i 0 = v
    by_cases hax : i ∈ ax <;> by_cases h1s : v = 1 <;>
      simp [bcDim, hax, h1s]

theorem bcShape_reduced_left (s ax : List Nat) : bcShape (reduceShape s ax) s = s := by
  apply list_ext_getD
  · rw [bcShape_length, reduceShape_length]; omega
  · intro i hi
    rw [bcShape_length, reduceShape_length] at hi
    have h1 : i < s.length := by omega
    rw [bcShape_getD _ _ i (by rw [reduceShape_length]; omega) h1,
      reduceShape_getD s ax i h1]
    generalize s.getD i 0 = v
    by_cases hax : i ∈ ax <;> by_cases h1s : v = 1 <;>
      simp [bcDim, hax, h1s]

theorem validIdx_reduceIdx {s idx : List Nat} (ax : List Nat) (h : validIdx s idx) :
    validIdx (reduceShape s ax) (reduceIdx ax idx) := by
  obtain ⟨hlen, hlt⟩ := h
  constructor
  · rw [reduceIdx_length, reduceShape_length]; omega
  · intro i hi
    rw [reduceShape_length] at hi
    rw [reduceIdx_getD ax idx i (by omega), reduceShape_getD s ax i hi]
    by_cases hax : i ∈ ax
    · simp [hax]
    · simpa [hax] using hlt i hi

theorem mem_cartProd {ls : List (List Nat)} {k : List Nat} (h : k ∈ cartProd ls) :
    k.length = ls.length ∧ ∀ i, i < ls.length → k.getD i 0 ∈ ls.getD i [] := by
  induction ls generalizing k with
  | nil =>
    simp [cartProd] at h
    subst h
    simp
  | cons l ls ih =>
    rw [cartProd, List.mem_flatMap] at h
    obtain ⟨v, hv, hk⟩ := h
    rw [List.mem_map] at hk
    obtain ⟨t, ht, rfl⟩ := hk
    obtain ⟨hl, hrest⟩ := ih ht
    refine ⟨by simp [hl], ?_⟩
    intro i hi
    match i with
    | 0 => simpa using hv
    | Nat.succ i => simpa using hrest i (by simpa using hi)

theorem axisRanges_getD (s ax : List Nat) (i : Nat) (h : i < s.length) :
    (axisRanges s ax).getD i [] = if i ∈ ax then List.range (s.getD i 0) else [0] := by
  rw [axisRanges, getD_range_map _ _ _ _ h]

theorem axisRanges_length (s ax : List Nat) : (axisRanges s ax).length = s.length := by
  simp [axisRanges]

theorem axisTuples_length {s ax k : List Nat} (h : k ∈ axisTuples s ax) :
    k.length = s.length := by
  have := (mem_cartProd h).1
  rwa [axisRanges_length] at this

theorem axisTuples_bound {s ax k : List Nat} (h : k ∈ axisTuples s ax) (i : Nat)
    (hi : i < s.length) (hax : i ∈ ax) : k.getD i 0 < s.getD i 0 := by
  have hmem := (mem_cartProd h).2 i (by rwa [axisRanges_length])
  rw [axisRanges_getD s ax i hi] at hmem
  simpa [hax] using hmem

theorem validIdx_mergeIdx {s ax j k : List Nat} (hj : validIdx (reduceShape s ax) j)
    (hk : k ∈ axisTuples s ax) : validIdx s (mergeIdx ax s.length j k) := by
  obtain ⟨hjlen, hjlt⟩ := hj
  constructor
  · rw [mergeIdx_length]
  · intro i hi
    rw [mergeIdx_getD ax s.length j k i hi]
    by_cases hax : i ∈ ax
    · simpa [hax] using axisTuples_bound hk i hi hax
    · have := hjlt i (by rwa [reduceShape_length])
      rw [reduceShape_getD s ax i hi] at this
      simpa [hax] using this

theorem reduceIdx_mergeIdx {s ax j : List Nat} (k : List Nat)
    (hj : validIdx (reduceShape s ax) j) :
    reduceIdx ax (mergeIdx ax s.length j k) = j := by
  obtain ⟨hjlen, hjlt⟩ := hj
  rw [reduceShape_length] at hjlen
  apply list_ext_getD
  · rw [reduceIdx_length, mergeIdx_length]; omega
  · intro i hi
    rw [reduceIdx_length, mergeIdx_length] at hi
    rw [reduceIdx_getD _ _ i (by rw [mergeIdx_length]; omega),
      mergeIdx_getD ax s.length j k i hi]
    by_cases hax : i ∈ ax
    · have := hjlt i (by rw [reduceShape_length]; omega)
      rw [reduceShape_getD s ax i hi] at this
      simp only [hax, if_true] at this ⊢
      omega
    · simp [hax]

end IndexLemmas

section DataLemmas

variable {α : Type} [Field α]

theorem map2_shape (f : α → α → α) (a b : NdArray α) :
    (map2 f a b).shape = bcShape a.shape b.shape := rfl

theorem map2_data (f : α → α → α) (a b : NdArray α) (idx : List Nat) :
    (map2 f a b).data idx = f (a.data (bcIdx a.shape idx)) (b.data (bcIdx b.shape idx)) := rfl

theorem map1_shape (f : α → α) (a : NdArray α) : (map1 f a).shape = a.shape := rfl

theorem map1_data (f : α → α) (a : NdArray α) (idx : List Nat) :
    (map1 f a).data idx = f (a.data idx) := rfl

theorem AsType_shape (d : Dtype) (a : NdArray α) : (AsType d a).shape = a.shape := rfl

theorem AsType_data (d : Dtype) (a : NdArray α) : (AsType d a).data = a.data := rfl

theorem AsType_dtype (d : Dtype) (a : NdArray α) : (AsType d a).dtype = d := rfl

theorem sumAxes_shape (a : NdArray α) (ax : List Nat) :
    (sumAxes a ax).shape = reduceShape a.shape ax := rfl

theorem sumAxes_data (a : NdArray α) (ax j : List Nat) :
    (sumAxes a ax).data j = axSum a.shape ax j a.data := rfl

theorem Mean_shape (a : NdArray α) (ax : List Nat) :
    (Mean a ax).shape = reduceShape a.shape ax := rfl

theorem Mean_dtype (a : NdArray α) (ax : List Nat) : (Mean a ax).dtype = a.dtype := rfl

theorem Var_shape (a : NdArray α) (ax : List Nat) :
    (Var a ax).shape = reduceShape (bcShape (bcShape a.shape (reduceShape a.shape ax))
      (bcShape a.shape (reduceShape a.shape ax))) ax := rfl

theorem storeTo_data (out src : NdArray α) (idx : List Nat) :
    (storeTo out src).data idx = src.data idx := rfl

theorem promote2_self (d : Dtype) : promote2 d d = d := by simp [promote2]

end DataLemmas

section SpecFormulas

variable {α : Type} [Field α]

/-- Spec formula: value at reduced index `j` of the keepdims mean of `a`
over the axes `ax` (`x_mean = mean(x, axis, keepdims=true)`). -/
def specMeanVal (a : NdArray α) (ax j : List Nat) : α :=
  axSum a.shape ax j a.data / (axisCount a.shape ax : α)

/-- Spec formula: value at reduced index `j` of the keepdims population
variance of `a` over the axes `ax` (divisor `n`, not `n - 1`). -/
def specVarVal (a : NdArray α) (ax j : List Nat) : α :=
  axSum a.shape ax j
    (fun i => (a.data i - specMeanVal a ax j) * (a.data i - specMeanVal a ax j)) /
    (axisCount a.shape ax : α)

theorem Mean_data (a : NdArray α) (ax j : List Nat) :
    (Mean a ax).data j = specMeanVal a ax j := rfl

/-- The library `Var` routine computes exactly the spec's population
variance at every valid reduced index. -/
theorem Var_data (a : NdArray α) (ax j : List Nat)
    (hj : validIdx (reduceShape a.shape ax) j) :
    (Var a ax).data j = specVarVal a ax j := by
  have hd : (map2 (fun u v : α => u - v) a (Mean a ax)).shape = a.shape :=
    bcShape_reduced_right a.shape ax
  show axSum (bcShape (bcShape a.shape (reduceShape a.shape ax))
        (bcShape a.shape (reduceShape a.shape ax))) ax j _ /
      (axisCount (bcShape (bcShape a.shape (reduceShape a.shape ax))
        (bcShape a.shape (reduceShape a.shape ax))) ax : α) = _
  rw [bcShape_reduced_right, bcShape_self]
  unfold specVarVal
  congr 1
  unfold axSum
  congr 1
  apply List.map_congr_left
  intro k hk
  have hvm : validIdx a.shape (mergeIdx ax a.shape.length j k) := validIdx_mergeIdx hj hk
  rw [map2_data, map2_data]
  rw [hd, bcIdx_self hvm, bcIdx_self hvm, Mean_shape, bcIdx_reduced ax hvm,
    reduceIdx_mergeIdx k hj, Mean_data]

end SpecFormulas

section Helpers

variable {α : Type} [Field α]

theorem castIfNeeded_shape (d : Dtype) (a : NdArray α) : (castIfNeeded d a).shape = a.shape := by
  unfold castIfNeeded; split <;> rfl

theorem castIfNeeded_data (d : Dtype) (a : NdArray α) : (castIfNeeded d a).data = a.data := by
  unfold castIfNeeded; split <;> rfl

theorem castIfNeeded_dtype (d : Dtype) (a : NdArray α) : (castIfNeeded d a).dtype = d := by
  unfold castIfNeeded; split
  · assumption
  · rfl

theorem axSum_congr {s ax j : List Nat} {f g : List Nat → α}
    (h : ∀ k ∈ axisTuples s ax, f (mergeIdx ax s.length j k) = g (mergeIdx ax s.length j k)) :
    axSum s ax j f = axSum s ax j g := by
  unfold axSum
  congr 1
  exact List.map_congr_left h

theorem specMeanVal_congr {a b : NdArray α} (hs : a.shape = b.shape) (hd : a.data = b.data)
    (ax j : List Nat) : specMeanVal a ax j = specMeanVal b ax j := by
  unfold specMeanVal axSum
  rw [hs, hd]

theorem specVarVal_congr {a b : NdArray α} (hs : a.shape = b.shape) (hd : a.data = b.data)
    (ax j : List Nat) : specVarVal a ax j = specVarVal b ax j := by
  unfold specVarVal specMeanVal axSum
  rw [hs, hd]

theorem Var_shape' (a : NdArray α) (ax : List Nat) :
    (Var a ax).shape = reduceShape a.shape ax := by
  rw [Var_shape, bcShape_reduced_right, bcShape_self]

theorem map2_shape_full {a b : NdArray α} {s : List Nat} (ha : a.shape = s) (hb : b.shape = s)
    (f : α → α → α) : (map2 f a b).shape = s := by
  rw [map2_shape, ha, hb, bcShape_self]

theorem map2_shape_mixed {a b : NdArray α} {s ax : List Nat} (ha : a.shape = s)
    (hb : b.shape = reduceShape s ax) (f : α → α → α) : (map2 f a b).shape = s := by
  rw [map2_shape, ha, hb, bcShape_reduced_right]

theorem map2_shape_mixed' {a b : NdArray α} {s ax : List Nat} (ha : a.shape = reduceShape s ax)
    (hb : b.shape = s) (f : α → α → α) : (map2 f a b).shape = s := by
  rw [map2_shape, ha, hb, bcShape_reduced_left]

theorem map2_data_full {a b : NdArray α} {s : List Nat} (ha : a.shape = s) (hb : b.shape = s)
    (f : α → α → α) {idx : List Nat} (hidx : validIdx s idx) :
    (map2 f a b).data idx = f (a.data idx) (b.data idx) := by
  rw [map2_data, ha, hb, bcIdx_self hidx]

theorem map2_data_mixed {a b : NdArray α} {s ax : List Nat} (ha : a.shape = s)
    (hb : b.shape = reduceShape s ax) (f : α → α → α) {idx : List Nat} (hidx : validIdx s idx) :
    (map2 f a b).data idx = f (a.data idx) (b.data (reduceIdx ax idx)) := by
  rw [map2_data, ha, hb, bcIdx_self hidx, bcIdx_reduced ax hidx]

theorem map2_data_mixed' {a b : NdArray α} {s ax : List Nat} (ha : a.shape = reduceShape s ax)
    (hb : b.shape = s) (f : α → α → α) {idx : List Nat} (hidx : validIdx s idx) :
    (map2 f a b).data idx = f (a.data (reduceIdx ax idx)) (b.data idx) := by
  rw [map2_data, ha, hb, bcIdx_self hidx, bcIdx_reduced ax hidx]

theorem sumAxes_map2_full {a b : NdArray α} {s ax : List Nat} (ha : a.shape = s)
    (hb : b.shape = s) (f : α → α → α) {j : List Nat} (hj : validIdx (reduceShape s ax) j) :
    (sumAxes (map2 f a b) ax).data j = axSum s ax j (fun i => f (a.data i) (b.data i)) := by
  rw [sumAxes_data, map2_shape_full ha hb]
  apply axSum_congr
  intro k hk
  exact map2_data_full ha hb f (validIdx_mergeIdx hj hk)

theorem sumAxes_single {a : NdArray α} {s : List Nat} (ha : a.shape = s) (ax j : List Nat) :
    (sumAxes a ax).data j = axSum s ax j a.data := by
  rw [sumAxes_data, ha]

theorem ReshapeOrIdentity_shape (a : NdArray α) (ns : List Nat) :
    (ReshapeOrIdentity a ns).shape = ns := by
  unfold ReshapeOrIdentity
  split
  · assumption
  · rfl

theorem ReshapeOrIdentity_dtype (a : NdArray α) (ns : List Nat) :
    (ReshapeOrIdentity a ns).dtype = a.dtype := by
  unfold ReshapeOrIdentity
  split <;> rfl

theorem ReshapeOrIdentity_eq_self {a : NdArray α} {ns : List Nat} (h : a.shape = ns) :
    ReshapeOrIdentity a ns = a := by
  unfold ReshapeOrIdentity
  simp [h]

theorem ReshapeOrIdentity_data_const {a : NdArray α} {c : α} (h : ∀ i, a.data i = c)
    (ns : List Nat) : ∀ i, (ReshapeOrIdentity a ns).data i = c := by
  intro i
  unfold ReshapeOrIdentity
  split
  · exact h i
  · exact h _

theorem mulS_shape (a : NdArray α) (s : α) : (mulS a s).shape = a.shape := rfl

theorem mulS_data (a : NdArray α) (s : α) (idx : List Nat) :
    (mulS a s).data idx = a.data idx * s := rfl

theorem smulA_shape (s : α) (a : NdArray α) : (smulA s a).shape = a.shape := rfl

theorem smulA_data (s : α) (a : NdArray α) (idx : List Nat) :
    (smulA s a).data idx = s * a.data idx := rfl

theorem addS_shape (a : NdArray α) (s : α) : (addS a s).shape = a.shape := rfl

theorem addS_data (a : NdArray α) (s : α) (idx : List Nat) :
    (addS a s).data idx = a.data idx + s := rfl

theorem negA_shape (a : NdArray α) : (negA a).shape = a.shape := rfl

theorem negA_data (a : NdArray α) (idx : List Nat) : (negA a).data idx = -a.data idx := rfl

theorem Reciprocal_shape (a : NdArray α) : (Reciprocal a).shape = a.shape := rfl

theorem Reciprocal_data (a : NdArray α) (idx : List Nat) :
    (Reciprocal a).data idx = 1 / a.data idx := rfl

theorem sqrtA_shape (sq : α → α) (a : NdArray α) : (sqrtA sq a).shape = a.shape := rfl

theorem sqrtA_data (sq : α → α) (a : NdArray α) (idx : List Nat) :
    (sqrtA sq a).data idx = sq (a.data idx) := rfl

end Helpers

section Claims

variable {α : Type} [Field α]

/-- Core computation of the kernel: the stored output value at a valid
index, with broadcasting resolved. -/
theorem ApplyBatchNorm_out_data (sq : α → α) (x gamma beta mean var out : NdArray α)
    (eps : α) (ax : List Nat) (d : Dtype)
    (hg : gamma.shape = reduceShape x.shape ax)
    (hb : beta.shape = reduceShape x.shape ax)
    (hm : mean.shape = reduceShape x.shape ax)
    (hv : var.shape = reduceShape x.shape ax)
    {idx : List Nat} (hidx : validIdx x.shape idx) :
    (ApplyBatchNorm sq x gamma beta mean var eps out d).1.data idx =
      (x.data idx - mean.data (reduceIdx ax idx)) *
        (1 / sq (var.data (reduceIdx ax idx) + eps)) *
        gamma.data (reduceIdx ax idx) + beta.data (reduceIdx ax idx) := by
  simp only [ApplyBatchNorm, storeTo_data, map2_data, map1_data, map2_shape, map1_shape,
    AsType_data, AsType_shape, Reciprocal, sqrtA, addS]
  rw [hg, hb, hm, hv]
  simp only [bcShape_reduced_right, bcShape_self, bcShape_reduced_left]
  simp only [bcIdx_self hidx, bcIdx_reduced ax hidx]

/-- C1: For every valid input (floating arrays with gamma and beta of the
reduced shape, mean and var of the reduced total size), the kernel core
evaluated in `interm_dtype` stores into the caller-provided `out` buffer
the cast of `(x − mean) * (1/sqrt(var + eps)) * gamma + beta`, and
returns `inv_std = 1/sqrt(var + eps)` as an array of dtype
`interm_dtype`. -/
theorem applyBatchNorm_spec (sq : α → α) (x gamma beta mean var out : NdArray α)
    (eps : α) (ax : List Nat) (d : Dtype)
    (hg : gamma.shape = reduceShape x.shape ax)
    (hb : beta.shape = reduceShape x.shape ax)
    (hm : mean.shape = reduceShape x.shape ax)
    (hv : var.shape = reduceShape x.shape ax)
    (ho : out.shape = x.shape) :
    (∀ idx, validIdx x.shape idx →
      (ApplyBatchNorm sq x gamma beta mean var eps out d).1.data idx =
        (x.data idx - mean.data (reduceIdx ax idx)) *
          (1 / sq (var.data (reduceIdx ax idx) + eps)) *
          gamma.data (reduceIdx ax idx) + beta.data (reduceIdx ax idx)) ∧
    (ApplyBatchNorm sq x gamma beta mean var eps out d).1.dtype = out.dtype ∧
    (ApplyBatchNorm sq x gamma beta mean var eps out d).1.shape = out.shape ∧
    (ApplyBatchNorm sq x gamma beta mean var eps out d).2.dtype = d ∧
    (ApplyBatchNorm sq x gamma beta mean var eps out d).2.shape = var.shape ∧
    ∀ j, (ApplyBatchNorm sq x gamma beta mean var eps out d).2.data j =
      1 / sq (var.data j + eps) :=
  ⟨fun idx hidx => ApplyBatchNorm_out_data sq x gamma beta mean var out eps ax d hg hb hm hv hidx,
    rfl, rfl, rfl, rfl, fun j => rfl⟩

/-- Concrete instances used by the witnesses. -/
def xW : NdArray ℚ := ⟨.float32, [2, 2], fun _ => 2⟩

def gammaW : NdArray ℚ := ⟨.float32, [1, 2], fun _ => 1⟩

def betaW : NdArray ℚ := ⟨.float32, [1, 2], fun _ => 0⟩

def meanW : NdArray ℚ := ⟨.float32, [1, 2], fun _ => 2⟩

def varW : NdArray ℚ := ⟨.float32, [1, 2], fun _ => 1⟩

def outW : NdArray ℚ := ⟨.float32, [2, 2], fun _ => 0⟩

/-- Witness for C1 at a concrete input. -/
theorem applyBatchNorm_spec_witness :
    (gammaW.shape = reduceShape xW.shape [0] ∧ validIdx xW.shape [0, 1]) ∧
    (ApplyBatchNorm (fun q : ℚ => q) xW gammaW betaW meanW varW (1 / 100) outW
        .float32).1.data [0, 1] =
      (xW.data [0, 1] - meanW.data (reduceIdx [0] [0, 1])) *
        (1 / (fun q : ℚ => q) (varW.data (reduceIdx [0] [0, 1]) + 1 / 100)) *
        gammaW.data (reduceIdx [0] [0, 1]) + betaW.data (reduceIdx [0] [0, 1]) :=
  ⟨⟨by decide, by decide⟩,
    (applyBatchNorm_spec (fun q : ℚ => q) xW gammaW betaW meanW varW outW (1 / 100) [0]
      .float32 (by decide) (by decide) (by decide) (by decide) (by decide)).1 [0, 1] (by decide)⟩

/-- C2: For every valid training forward call with per-feature sample
count `n = x.size / gamma.size` and `inv_decay = 1 − decay`, after the
call `running_mean` equals `decay·running_mean_old + (inv_decay·x_mean)`
cast to `running_mean.dtype`, and `running_var` equals
`decay·running_var_old + (inv_decay·(n/max(n−1,1))·x_var)` cast to
`running_var.dtype`, where `x_mean` and `x_var` are the keepdims mean
and population variance of `x` over the sorted axes in `interm_dtype`. -/
theorem batchNorm_running_update_spec (sq : α → α) (x gamma beta rm rv out : NdArray α)
    (eps decay : α) (ax : List Nat) (cap : Bool) :
    (∀ j, validIdx (reduceShape x.shape ax) j →
      (GenericBatchNormForwardOpCall sq x gamma beta rm rv eps decay ax out cap).runningMean.data j
        = decay * rm.data j + (1 - decay) * specMeanVal x ax j) ∧
    (∀ j, validIdx (reduceShape x.shape ax) j →
      (GenericBatchNormForwardOpCall sq x gamma beta rm rv eps decay ax out cap).runningVar.data j
        = decay * rv.data j +
          (1 - decay) * (((x.size / gamma.size : Nat) : α) /
            ((max (x.size / gamma.size - 1) 1 : Nat) : α)) * specVarVal x ax j) ∧
    (GenericBatchNormForwardOpCall sq x gamma beta rm rv eps decay ax out cap).runningMean.dtype
      = rm.dtype ∧
    (GenericBatchNormForwardOpCall sq x gamma beta rm rv eps decay ax out cap).runningVar.dtype
      = rv.dtype ∧
    (GenericBatchNormForwardOpCall sq x gamma beta rm rv eps decay ax out cap).runningMean.shape
      = rm.shape ∧
    (GenericBatchNormForwardOpCall sq x gamma beta rm rv eps decay ax out cap).runningVar.shape
      = rv.shape := by
  refine ⟨?_, ?_, rfl, rfl, rfl, rfl⟩
  · intro j hj
    simp only [GenericBatchNormForwardOpCall, iadd, imulS, smulA, map1_data, map1_shape,
      AsType_data, AsType_shape, Mean_shape, castIfNeeded_shape]
    rw [bcIdx_self hj, Mean_data,
      specMeanVal_congr (castIfNeeded_shape _ _) (castIfNeeded_data _ _)]
    ring
  · intro j hj
    simp only [GenericBatchNormForwardOpCall, iadd, imulS, smulA, map1_data, map1_shape,
      AsType_data, AsType_shape, Var_shape', castIfNeeded_shape]
    have hj' : validIdx
        (reduceShape (castIfNeeded (ResultType3 x.dtype gamma.dtype beta.dtype) x).shape ax) j := by
      rw [castIfNeeded_shape]
      exact hj
    rw [bcIdx_self hj, Var_data _ _ _ hj',
      specVarVal_congr (castIfNeeded_shape _ _) (castIfNeeded_data _ _)]
    ring

/-- Witness for C2 at a concrete input. -/
theorem batchNorm_running_update_spec_witness :
    validIdx (reduceShape xW.shape [0]) [0, 1] ∧
    (GenericBatchNormForwardOpCall (fun q : ℚ => q) xW gammaW betaW meanW varW (1 / 100) (1 / 2)
        [0] outW true).runningMean.data [0, 1]
      = (1 / 2) * meanW.data [0, 1] + (1 - (1 / 2)) * specMeanVal xW [0] [0, 1] :=
  ⟨by decide,
    (batchNorm_running_update_spec (fun q : ℚ => q) xW gammaW betaW meanW varW outW (1 / 100)
      (1 / 2) [0] true).1 [0, 1] (by decide)⟩

/-- C6: For every training forward call that requests state capture, the
captured pair `(x_mean, x_inv_std)` stored into the state slot both have
dtype equal to the intermediate precision, which is the common result
type of `x`, `gamma` and `beta` under the host dtype-promotion rules. -/
theorem batchNorm_state_dtype_spec (sq : α → α) (x gamma beta rm rv out : NdArray α)
    (eps decay : α) (ax : List Nat) :
    ∃ st : GenericBatchNormState α,
      (GenericBatchNormForwardOpCall sq x gamma beta rm rv eps decay ax out true).state = some st ∧
      st.xMean.dtype = ResultType3 x.dtype gamma.dtype beta.dtype ∧
      st.xInvStd.dtype = ResultType3 x.dtype gamma.dtype beta.dtype := by
  refine ⟨_, rfl, ?_, rfl⟩
  exact castIfNeeded_dtype _ _

/-- C9: For all valid training inputs with `decay = 1`, after the
training forward call `running_mean` and `running_var` are unchanged
(structurally equal, in the exact-arithmetic model). -/
theorem batchNorm_decay_one_frame (sq : α → α) (x gamma beta rm rv out : NdArray α)
    (eps decay : α) (ax : List Nat) (cap : Bool) (hdecay : decay = 1) :
    (GenericBatchNormForwardOpCall sq x gamma beta rm rv eps decay ax out cap).runningMean = rm ∧
    (GenericBatchNormForwardOpCall sq x gamma beta rm rv eps decay ax out cap).runningVar = rv := by
  subst hdecay
  constructor
  · refine NdArray.ext rfl rfl (funext fun i => ?_)
    simp [GenericBatchNormForwardOpCall, iadd, imulS, smulA, map1_data, AsType_data]
  · refine NdArray.ext rfl rfl (funext fun i => ?_)
    simp [GenericBatchNormForwardOpCall, iadd, imulS, smulA, map1_data, AsType_data]

/-- Witness for C9 at a concrete input. -/
theorem batchNorm_decay_one_frame_witness :
    ((1 : ℚ) = 1) ∧
    (GenericBatchNormForwardOpCall (fun q : ℚ => q) xW gammaW betaW meanW varW (1 / 100) 1 [0]
        outW true).runningMean = meanW :=
  ⟨rfl,
    (batchNorm_decay_one_frame (fun q : ℚ => q) xW gammaW betaW meanW varW outW (1 / 100) 1 [0]
      true rfl).1⟩

/-- C10: The first-order backward op's result does not depend on its
`eps` argument: for any two eps values and otherwise identical inputs
(including the same captured state), `GenericBatchNormBackwardOp`
produces identical `gx`, `ggamma`, `gbeta`. -/
theorem batchNormBackward_eps_independent (x gamma gout : NdArray α) (eps1 eps2 : α)
    (ax : List Nat) (gxBuf ggammaBuf gbetaBuf : NdArray α) (st : GenericBatchNormState α) :
    GenericBatchNormBackwardOpCall x gamma gout eps1 ax gxBuf ggammaBuf gbetaBuf st =
      GenericBatchNormBackwardOpCall x gamma gout eps2 ax gxBuf ggammaBuf gbetaBuf st := rfl

/-- Spec formula for the first-order backward:
`x_hat = (x − x_mean) * x_inv_std` pointwise, broadcast resolved. -/
def specXHat (x : NdArray α) (st : GenericBatchNormState α) (ax i : List Nat) : α :=
  (x.data i - st.xMean.data (reduceIdx ax i)) * st.xInvStd.data (reduceIdx ax i)

/-- Spec formula: `ggamma = sum(gout * x_hat, axis, keepdims=true)`. -/
def specGGammaVal (x gout : NdArray α) (st : GenericBatchNormState α) (ax j : List Nat) : α :=
  axSum x.shape ax j (fun i => gout.data i * specXHat x st ax i)

/-- Spec formula: `gbeta = sum(gout, axis, keepdims=true)`. -/
def specGBetaVal (x gout : NdArray α) (ax j : List Nat) : α :=
  axSum x.shape ax j gout.data

/-- Spec formula:
`gx = (gamma * x_inv_std) * (gout − (x_hat * ggamma + gbeta) * (1/n))`
with `n = x.size / gamma.size`. -/
def specGxVal (x gamma gout : NdArray α) (st : GenericBatchNormState α) (ax i : List Nat) : α :=
  (gamma.data (reduceIdx ax i) * st.xInvStd.data (reduceIdx ax i)) *
    (gout.data i -
      (specXHat x st ax i * specGGammaVal x gout st ax (reduceIdx ax i) +
        specGBetaVal x gout ax (reduceIdx ax i)) * ((1 : α) / ((x.size / gamma.size : Nat) : α)))

theorem bnXHat_shape {x : NdArray α} {st : GenericBatchNormState α} {ax : List Nat}
    (hxm : st.xMean.shape = reduceShape x.shape ax)
    (hxv : st.xInvStd.shape = reduceShape x.shape ax) : (bnXHat x st).shape = x.shape := by
  unfold bnXHat
  exact map2_shape_mixed (map2_shape_mixed (AsType_shape _ _) hxm _) hxv _

theorem bnXHat_data {x : NdArray α} {st : GenericBatchNormState α} {ax : List Nat}
    (hxm : st.xMean.shape = reduceShape x.shape ax)
    (hxv : st.xInvStd.shape = reduceShape x.shape ax) {idx : List Nat}
    (hidx : validIdx x.shape idx) : (bnXHat x st).data idx = specXHat x st ax idx := by
  unfold bnXHat
  rw [map2_data_mixed (map2_shape_mixed (AsType_shape _ _) hxm _) hxv _ hidx,
    map2_data_mixed (AsType_shape _ _) hxm _ hidx, AsType_data]
  rfl

theorem bnGGammaCast_data {x gout : NdArray α} {st : GenericBatchNormState α} {ax : List Nat}
    (hgout : gout.shape = x.shape) (hxm : st.xMean.shape = reduceShape x.shape ax)
    (hxv : st.xInvStd.shape = reduceShape x.shape ax) {j : List Nat}
    (hj : validIdx (reduceShape x.shape ax) j) :
    (bnGGammaCast x gout st ax).data j = specGGammaVal x gout st ax j := by
  unfold bnGGammaCast specGGammaVal
  rw [sumAxes_map2_full (by rw [AsType_shape, hgout]) (bnXHat_shape hxm hxv) _ hj]
  apply axSum_congr
  intro k hk
  have hvm := validIdx_mergeIdx hj hk
  rw [AsType_data, bnXHat_data hxm hxv hvm]

theorem bnGBetaCast_data {x gout : NdArray α} {st : GenericBatchNormState α}
    (hgout : gout.shape = x.shape) (ax j : List Nat) :
    (bnGBetaCast gout st ax).data j = specGBetaVal x gout ax j := by
  unfold bnGBetaCast specGBetaVal
  rw [sumAxes_single (by rw [AsType_shape, hgout]) ax j, AsType_data]

theorem bnGxCast_data {x gamma gout : NdArray α} {st : GenericBatchNormState α} {ax : List Nat}
    (hgamma : gamma.shape = reduceShape x.shape ax) (hgout : gout.shape = x.shape)
    (hxm : st.xMean.shape = reduceShape x.shape ax)
    (hxv : st.xInvStd.shape = reduceShape x.shape ax) {idx : List Nat}
    (hidx : validIdx x.shape idx) :
    (bnGxCast x gamma gout st ax).data idx = specGxVal x gamma gout st ax idx := by
  unfold bnGxCast
  have hxh : (bnXHat x st).shape = x.shape := bnXHat_shape hxm hxv
  have hco : (map2 (fun u v : α => u * v) (AsType st.xMean.dtype gamma) st.xInvStd).shape
      = reduceShape x.shape ax := map2_shape_full (by rw [AsType_shape, hgamma]) hxv _
  have hgg : (bnGGammaCast x gout st ax).shape = reduceShape x.shape ax := by
    unfold bnGGammaCast
    rw [sumAxes_shape, map2_shape_full (by rw [AsType_shape, hgout]) hxh]
  have hgb : (bnGBetaCast gout st ax).shape = reduceShape x.shape ax := by
    unfold bnGBetaCast
    rw [sumAxes_shape, AsType_shape, hgout]
  have hinner : (map2 (fun u v : α => u + v)
      (map2 (fun u v : α => u * v) (bnXHat x st) (bnGGammaCast x gout st ax))
      (bnGBetaCast gout st ax)).shape = x.shape :=
    map2_shape_mixed (map2_shape_mixed hxh hgg _) hgb _
  rw [map2_data_mixed' hco
    (map2_shape_full (by rw [AsType_shape, hgout]) (by rw [mulS_shape, hinner]) _) _ hidx]
  rw [map2_data_full (by rw [AsType_shape, hgamma]) hxv _ (validIdx_reduceIdx ax hidx)]
  rw [map2_data_full (by rw [AsType_shape, hgout]) (by rw [mulS_shape, hinner]) _ hidx]
  rw [mulS_data, map2_data_mixed (map2_shape_mixed hxh hgg _) hgb _ hidx,
    map2_data_mixed hxh hgg _ hidx, bnXHat_data hxm hxv hidx,
    bnGGammaCast_data hgout hxm hxv (validIdx_reduceIdx ax hidx),
    bnGBetaCast_data hgout ax (reduceIdx ax idx), AsType_data, AsType_data]
  rfl

/-- C3: For every valid first-order backward call with captured state
`(x_mean, x_inv_std)`, letting `interm_dtype = x_mean.dtype`,
`n = x.size / gamma.size`, and `x_hat = (x − x_mean) * x_inv_std`, the
op stores (cast to the destination buffers' dtypes):
`ggamma = sum(gout * x_hat, axis, keepdims)`,
`gbeta = sum(gout, axis, keepdims)`, and
`gx = (gamma * x_inv_std) * (gout − (x_hat * ggamma + gbeta) / n)`, all
computed in `interm_dtype`. -/
theorem batchNormBackward_spec (x gamma gout : NdArray α) (eps : α) (ax : List Nat)
    (gxBuf ggammaBuf gbetaBuf : NdArray α) (st : GenericBatchNormState α)
    (hgamma : gamma.shape = reduceShape x.shape ax)
    (hgout : gout.shape = x.shape)
    (hxm : st.xMean.shape = reduceShape x.shape ax)
    (hxv : st.xInvStd.shape = reduceShape x.shape ax) :
    (∀ idx, validIdx x.shape idx →
      (GenericBatchNormBackwardOpCall x gamma gout eps ax gxBuf ggammaBuf gbetaBuf st).gx.data idx
        = specGxVal x gamma gout st ax idx) ∧
    (∀ j, validIdx (reduceShape x.shape ax) j →
      (GenericBatchNormBackwardOpCall x gamma gout eps ax gxBuf ggammaBuf
          gbetaBuf st).ggamma.data j
        = specGGammaVal x gout st ax j) ∧
    (∀ j, validIdx (reduceShape x.shape ax) j →
      (GenericBatchNormBackwardOpCall x gamma gout eps ax gxBuf ggammaBuf
          gbetaBuf st).gbeta.data j
        = specGBetaVal x gout ax j) ∧
    (GenericBatchNormBackwardOpCall x gamma gout eps ax gxBuf ggammaBuf
      gbetaBuf st).gx.dtype = gxBuf.dtype ∧
    (GenericBatchNormBackwardOpCall x gamma gout eps ax gxBuf ggammaBuf
      gbetaBuf st).ggamma.dtype = ggammaBuf.dtype ∧
    (GenericBatchNormBackwardOpCall x gamma gout eps ax gxBuf ggammaBuf
      gbetaBuf st).gbeta.dtype = gbetaBuf.dtype := by
  refine ⟨?_, ?_, ?_, rfl, rfl, rfl⟩
  · intro idx hidx
    exact (storeTo_data _ _ _).trans (bnGxCast_data hgamma hgout hxm hxv hidx)
  · intro j hj
    exact (storeTo_data _ _ _).trans (bnGGammaCast_data hgout hxm hxv hj)
  · intro j hj
    exact (storeTo_data _ _ _).trans (bnGBetaCast_data hgout ax j)

/-- Concrete captured state used by the backward witnesses. -/
def stW : GenericBatchNormState ℚ :=
  ⟨⟨.float32, [1, 2], fun _ => 2⟩, ⟨.float32, [1, 2], fun _ => 1⟩⟩

/-- Witness for C3 at a concrete input. -/
theorem batchNormBackward_spec_witness :
    (gammaW.shape = reduceShape xW.shape [0] ∧ validIdx xW.shape [1, 0]) ∧
    (GenericBatchNormBackwardOpCall xW gammaW outW (1 / 100) [0] xW gammaW betaW
        stW).gx.data [1, 0]
      = specGxVal xW gammaW outW stW [0] [1, 0] :=
  ⟨⟨by decide, by decide⟩,
    (batchNormBackward_spec xW gammaW outW (1 / 100) [0] xW gammaW betaW stW (by decide)
      (by decide) (by decide) (by decide)).1 [1, 0] (by decide)⟩

/-- Value of an optional upstream gradient: the array's value when
present, zero when absent. -/
def gradOrZero (o : Option (NdArray α)) (i : List Nat) : α :=
  match o with
  | some a => a.data i
  | none => 0

theorem ArrayOrZeros_data (o : Option (NdArray α)) (t : NdArray α) (d : Dtype) :
    (ArrayOrZeros o t d).data = gradOrZero o := by
  funext i
  cases o with
  | none => rfl
  | some a =>
    show (if a.dtype = d then a else AsType d a).data i = a.data i
    split <;> rfl

theorem ArrayOrZeros_shape {o : Option (NdArray α)} {t : NdArray α} {d : Dtype} {s : List Nat}
    (ht : t.shape = s) (ho : ∀ a, o = some a → a.shape = s) :
    (ArrayOrZeros o t d).shape = s := by
  cases o with
  | none => exact ht
  | some a =>
    have ha := ho a rfl
    show (if a.dtype = d then a else AsType d a).shape = s
    split
    · exact ha
    · rw [AsType_shape]
      exact ha

/-- Spec formula (second-order backward): `x_inv_std = 1/sqrt(var + eps)`
recomputed from the retained input. -/
def spec2InvStdVal (sq : α → α) (q : BN2In α) (ax j : List Nat) : α :=
  1 / sq (specVarVal q.xRet ax j + q.eps)

/-- Spec formula: `x_hat = (x − x_mean) * x_inv_std` recomputed from the
retained input. -/
def spec2XHatVal (sq : α → α) (q : BN2In α) (ax i : List Nat) : α :=
  (q.xRet.data i - specMeanVal q.xRet ax (reduceIdx ax i)) * spec2InvStdVal sq q ax (reduceIdx ax i)

/-- Spec formula: `r = sum(gx * ggx, axis, keepdims=true)`. -/
def spec2RVal (q : BN2In α) (ax j : List Nat) : α :=
  axSum q.xRet.shape ax j (fun i => q.gxRet.data i * gradOrZero q.ggxOpt i)

/-- Spec formula: `coeff = gamma * x_inv_std`. -/
def spec2CoeffVal (sq : α → α) (q : BN2In α) (ax j : List Nat) : α :=
  q.gammaRet.data j * spec2InvStdVal sq q ax j

/-- Spec formula: `coeff_m = coeff * (1/n)` with `n = x.size / gamma.size`. -/
def spec2CoeffMVal (sq : α → α) (q : BN2In α) (ax j : List Nat) : α :=
  spec2CoeffVal sq q ax j * ((1 : α) / ((q.xRet.size / q.gammaRet.size : Nat) : α))

/-- Spec formula: `gggamma' = gggamma − coeff_m * sum(x_hat * ggx, axis, keepdims=true)`. -/
def spec2Gggamma2Val (sq : α → α) (q : BN2In α) (ax j : List Nat) : α :=
  gradOrZero q.gggammaOpt j -
    spec2CoeffMVal sq q ax j *
      axSum q.xRet.shape ax j (fun i => spec2XHatVal sq q ax i * gradOrZero q.ggxOpt i)

/-- Spec formula: `ggbeta' = ggbeta − coeff_m * sum(ggx, axis, keepdims=true)`. -/
def spec2Ggbeta2Val (sq : α → α) (q : BN2In α) (ax j : List Nat) : α :=
  gradOrZero q.ggbetaOpt j -
    spec2CoeffMVal sq q ax j * axSum q.xRet.shape ax j (gradOrZero q.ggxOpt)

/-- Spec formula: `gx_hat' = gggamma' * gout − coeff_m * ggamma * ggx`. -/
def spec2GxHat2Val (sq : α → α) (q : BN2In α) (ax i : List Nat) : α :=
  spec2Gggamma2Val sq q ax (reduceIdx ax i) * q.goutRet.data i -
    spec2CoeffMVal sq q ax (reduceIdx ax i) * q.ggammaRet.data (reduceIdx ax i) *
      gradOrZero q.ggxOpt i

/-- Spec formula: `gstd' = −x_inv_std * (r + sum(x_hat * gx_hat', axis, keepdims=true))`. -/
def spec2Gstd2Val (sq : α → α) (q : BN2In α) (ax j : List Nat) : α :=
  -spec2InvStdVal sq q ax j *
    (spec2RVal q ax j +
      axSum q.xRet.shape ax j (fun i => spec2XHatVal sq q ax i * spec2GxHat2Val sq q ax i))

/-- Spec formula: `gmean' = −x_inv_std * sum(gx_hat', axis, keepdims=true)`. -/
def spec2Gmean2Val (sq : α → α) (q : BN2In α) (ax j : List Nat) : α :=
  -spec2InvStdVal sq q ax j * axSum q.xRet.shape ax j (fun i => spec2GxHat2Val sq q ax i)

/-- Spec formula: `gx_out = x_inv_std * gx_hat' + (1/n) * (gmean' + x_hat * gstd')`. -/
def spec2Gx2Val (sq : α → α) (q : BN2In α) (ax i : List Nat) : α :=
  spec2InvStdVal sq q ax (reduceIdx ax i) * spec2GxHat2Val sq q ax i +
    ((1 : α) / ((q.xRet.size / q.gammaRet.size : Nat) : α)) *
      (spec2Gmean2Val sq q ax (reduceIdx ax i) +
        spec2XHatVal sq q ax i * spec2Gstd2Val sq q ax (reduceIdx ax i))

/-- Spec formula: `ggout_out = gggamma' * x_hat + ggbeta' + coeff * ggx`. -/
def spec2Ggout2Val (sq : α → α) (q : BN2In α) (ax i : List Nat) : α :=
  spec2Gggamma2Val sq q ax (reduceIdx ax i) * spec2XHatVal sq q ax i +
    spec2Ggbeta2Val sq q ax (reduceIdx ax i) +
    spec2CoeffVal sq q ax (reduceIdx ax i) * gradOrZero q.ggxOpt i

/-- Spec formula: `ggamma_out = r / gamma`. -/
def spec2Ggamma2Val (q : BN2In α) (ax j : List Nat) : α :=
  spec2RVal q ax j / q.gammaRet.data j

/-- Shape validity of a second-order backward invocation: the retained
inputs, first-order outputs and present upstream gradients have the
shapes the first-order backward produced them with. -/
structure BN2Valid (q : BN2In α) (ax : List Nat) : Prop where
  hgammaR : q.gammaRet.shape = reduceShape q.xRet.shape ax
  hgout : q.goutRet.shape = q.xRet.shape
  hgx : q.gxRet.shape = q.xRet.shape
  hggamR : q.ggammaRet.shape = reduceShape q.xRet.shape ax
  hggx : ∀ a, q.ggxOpt = some a → a.shape = q.xRet.shape
  hgggamma : ∀ a, q.gggammaOpt = some a → a.shape = reduceShape q.xRet.shape ax
  hggbeta : ∀ a, q.ggbetaOpt = some a → a.shape = reduceShape q.xRet.shape ax

theorem bn2X_shape (q : BN2In α) : (bn2X q).shape = q.xRet.shape := rfl

theorem bn2X_data (q : BN2In α) : (bn2X q).data = q.xRet.data := rfl

theorem bn2Gamma_shape (q : BN2In α) : (bn2Gamma q).shape = q.gammaRet.shape := rfl

theorem bn2Gamma_data (q : BN2In α) : (bn2Gamma q).data = q.gammaRet.data := rfl

theorem bn2Gout_shape (q : BN2In α) : (bn2Gout q).shape = q.goutRet.shape := rfl

theorem bn2Gout_data (q : BN2In α) : (bn2Gout q).data = q.goutRet.data := rfl

theorem bn2Gx_shape (q : BN2In α) : (bn2Gx q).shape = q.gxRet.shape := rfl

theorem bn2Gx_data (q : BN2In α) : (bn2Gx q).data = q.gxRet.data := rfl

theorem bn2Ggamma_shape (q : BN2In α) : (bn2Ggamma q).shape = q.ggammaRet.shape := rfl

theorem bn2Ggamma_data (q : BN2In α) : (bn2Ggamma q).data = q.ggammaRet.data := rfl

theorem bn2Ggx_data (q : BN2In α) : (bn2Ggx q).data = gradOrZero q.ggxOpt :=
  ArrayOrZeros_data _ _ _

theorem bn2Ggx_shape {q : BN2In α} {ax : List Nat} (hv : BN2Valid q ax) :
    (bn2Ggx q).shape = q.xRet.shape :=
  ArrayOrZeros_shape (bn2X_shape q) hv.hggx

theorem bn2Gggamma_data (q : BN2In α) : (bn2Gggamma q).data = gradOrZero q.gggammaOpt :=
  ArrayOrZeros_data _ _ _

theorem bn2Gggamma_shape {q : BN2In α} {ax : List Nat} (hv : BN2Valid q ax) :
    (bn2Gggamma q).shape = reduceShape q.xRet.shape ax :=
  ArrayOrZeros_shape ((bn2Gamma_shape q).trans hv.hgammaR) hv.hgggamma

theorem bn2Ggbeta_data (q : BN2In α) : (bn2Ggbeta q).data = gradOrZero q.ggbetaOpt :=
  ArrayOrZeros_data _ _ _

theorem bn2Ggbeta_shape {q : BN2In α} {ax : List Nat} (hv : BN2Valid q ax) :
    (bn2Ggbeta q).shape = reduceShape q.xRet.shape ax :=
  ArrayOrZeros_shape ((bn2Gamma_shape q).trans hv.hgammaR) hv.hggbeta

theorem bn2XMean_shape (q : BN2In α) (ax : List Nat) :
    (bn2XMean q ax).shape = reduceShape q.xRet.shape ax := rfl

theorem bn2XMean_data (q : BN2In α) (ax j : List Nat) :
    (bn2XMean q ax).data j = specMeanVal q.xRet ax j := by
  unfold bn2XMean
  rw [AsType_data, Mean_data]
  exact specMeanVal_congr rfl rfl ax j

theorem bn2XVar_shape (q : BN2In α) (ax : List Nat) :
    (bn2XVar q ax).shape = reduceShape q.xRet.shape ax := by
  unfold bn2XVar
  rw [AsType_shape, Var_shape']
  rfl

theorem bn2XVar_data (q : BN2In α) (ax : List Nat) {j : List Nat}
    (hj : validIdx (reduceShape q.xRet.shape ax) j) :
    (bn2XVar q ax).data j = specVarVal q.xRet ax j := by
  unfold bn2XVar
  rw [AsType_data, Var_data (bn2X q) ax j hj]
  exact specVarVal_congr rfl rfl ax j

theorem bn2XInvStd_shape (sq : α → α) (q : BN2In α) (ax : List Nat) :
    (bn2XInvStd sq q ax).shape = reduceShape q.xRet.shape ax := by
  unfold bn2XInvStd
  rw [AsType_shape, Reciprocal_shape, sqrtA_shape, addS_shape, bn2XVar_shape]

theorem bn2XInvStd_data (sq : α → α) (q : BN2In α) (ax : List Nat) {j : List Nat}
    (hj : validIdx (reduceShape q.xRet.shape ax) j) :
    (bn2XInvStd sq q ax).data j = spec2InvStdVal sq q ax j := by
  unfold bn2XInvStd spec2InvStdVal
  rw [AsType_data, Reciprocal_data, sqrtA_data, addS_data, bn2XVar_data q ax hj]

theorem bn2XHat_shape (sq : α → α) (q : BN2In α) (ax : List Nat) :
    (bn2XHat sq q ax).shape = q.xRet.shape := by
  unfold bn2XHat
  exact map2_shape_mixed (map2_shape_mixed (bn2X_shape q) (bn2XMean_shape q ax) _)
    (bn2XInvStd_shape sq q ax) _

theorem bn2XHat_data (sq : α → α) (q : BN2In α) (ax : List Nat) {idx : List Nat}
    (hidx : validIdx q.xRet.shape idx) :
    (bn2XHat sq q ax).data idx = spec2XHatVal sq q ax idx := by
  unfold bn2XHat spec2XHatVal
  rw [map2_data_mixed (map2_shape_mixed (bn2X_shape q) (bn2XMean_shape q ax) _)
      (bn2XInvStd_shape sq q ax) _ hidx,
    map2_data_mixed (bn2X_shape q) (bn2XMean_shape q ax) _ hidx, bn2X_data,
    bn2XMean_data, bn2XInvStd_data sq q ax (validIdx_reduceIdx ax hidx)]

theorem bn2R_shape {q : BN2In α} {ax : List Nat} (hv : BN2Valid q ax) :
    (bn2R q ax).shape = reduceShape q.xRet.shape ax := by
  unfold bn2R
  rw [sumAxes_shape, map2_shape_full ((bn2Gx_shape q).trans hv.hgx) (bn2Ggx_shape hv)]

theorem bn2R_data {q : BN2In α} {ax : List Nat} (hv : BN2Valid q ax) {j : List Nat}
    (hj : validIdx (reduceShape q.xRet.shape ax) j) :
    (bn2R q ax).data j = spec2RVal q ax j := by
  unfold bn2R spec2RVal
  rw [sumAxes_map2_full ((bn2Gx_shape q).trans hv.hgx) (bn2Ggx_shape hv) _ hj]
  apply axSum_congr
  intro k hk
  rw [bn2Gx_data, bn2Ggx_data]

theorem bn2Coeff_shape (sq : α → α) {q : BN2In α} {ax : List Nat} (hv : BN2Valid q ax) :
    (bn2Coeff sq q ax).shape = reduceShape q.xRet.shape ax := by
  unfold bn2Coeff
  exact map2_shape_full ((bn2Gamma_shape q).trans hv.hgammaR) (bn2XInvStd_shape sq q ax) _

theorem bn2Coeff_data (sq : α → α) {q : BN2In α} {ax : List Nat} (hv : BN2Valid q ax)
    {j : List Nat} (hj : validIdx (reduceShape q.xRet.shape ax) j) :
    (bn2Coeff sq q ax).data j = spec2CoeffVal sq q ax j := by
  unfold bn2Coeff spec2CoeffVal
  rw [map2_data_full ((bn2Gamma_shape q).trans hv.hgammaR) (bn2XInvStd_shape sq q ax) _ hj,
    bn2Gamma_data, bn2XInvStd_data sq q ax hj]

theorem bn2InvN_eq (q : BN2In α) :
    (bn2InvN q : α) = (1 : α) / ((q.xRet.size / q.gammaRet.size : Nat) : α) := rfl

theorem bn2CoeffM_shape (sq : α → α) {q : BN2In α} {ax : List Nat} (hv : BN2Valid q ax) :
    (bn2CoeffM sq q ax).shape = reduceShape q.xRet.shape ax := by
  unfold bn2CoeffM
  rw [mulS_shape, bn2Coeff_shape sq hv]

theorem bn2CoeffM_data (sq : α → α) {q : BN2In α} {ax : List Nat} (hv : BN2Valid q ax)
    {j : List Nat} (hj : validIdx (reduceShape q.xRet.shape ax) j) :
    (bn2CoeffM sq q ax).data j = spec2CoeffMVal sq q ax j := by
  unfold bn2CoeffM spec2CoeffMVal
  rw [mulS_data, bn2Coeff_data sq hv hj, bn2InvN_eq]

theorem bn2SumXHatGgx_data (sq : α → α) {q : BN2In α} {ax : List Nat} (hv : BN2Valid q ax)
    {j : List Nat} (hj : validIdx (reduceShape q.xRet.shape ax) j) :
    (sumAxes (map2 (fun u v => u * v) (bn2XHat sq q ax) (bn2Ggx q)) ax).data j
      = axSum q.xRet.shape ax j (fun i => spec2XHatVal sq q ax i * gradOrZero q.ggxOpt i) := by
  rw [sumAxes_map2_full (bn2XHat_shape sq q ax) (bn2Ggx_shape hv) _ hj]
  apply axSum_congr
  intro k hk
  rw [bn2XHat_data sq q ax (validIdx_mergeIdx hj hk), bn2Ggx_data]

theorem bn2SumGgx_data {q : BN2In α} {ax : List Nat} (hv : BN2Valid q ax) (j : List Nat) :
    (sumAxes (bn2Ggx q) ax).data j = axSum q.xRet.shape ax j (gradOrZero q.ggxOpt) := by
  rw [sumAxes_single (bn2Ggx_shape hv) ax j, bn2Ggx_data]

theorem bn2Gggamma2_shape (sq : α → α) {q : BN2In α} {ax : List Nat} (hv : BN2Valid q ax) :
    (bn2Gggamma2 sq q ax).shape = reduceShape q.xRet.shape ax := by
  unfold bn2Gggamma2
  exact map2_shape_full (bn2Gggamma_shape hv)
    (map2_shape_full (bn2CoeffM_shape sq hv)
      (by rw [sumAxes_shape, map2_shape_full (bn2XHat_shape sq q ax) (bn2Ggx_shape hv)]) _) _

theorem bn2Gggamma2_data (sq : α → α) {q : BN2In α} {ax : List Nat} (hv : BN2Valid q ax)
    {j : List Nat} (hj : validIdx (reduceShape q.xRet.shape ax) j) :
    (bn2Gggamma2 sq q ax).data j = spec2Gggamma2Val sq q ax j := by
  unfold bn2Gggamma2 spec2Gggamma2Val
  rw [map2_data_full (bn2Gggamma_shape hv)
      (map2_shape_full (bn2CoeffM_shape sq hv)
        (by rw [sumAxes_shape, map2_shape_full (bn2XHat_shape sq q ax) (bn2Ggx_shape hv)]) _)
      _ hj,
    map2_data_full (bn2CoeffM_shape sq hv)
      (by rw [sumAxes_shape, map2_shape_full (bn2XHat_shape sq q ax) (bn2Ggx_shape hv)]) _ hj,
    bn2Gggamma_data, bn2CoeffM_data sq hv hj, bn2SumXHatGgx_data sq hv hj]

theorem bn2Ggbeta2_shape (sq : α → α) {q : BN2In α} {ax : List Nat} (hv : BN2Valid q ax) :
    (bn2Ggbeta2 sq q ax).shape = reduceShape q.xRet.shape ax := by
  unfold bn2Ggbeta2
  exact map2_shape_full (bn2Ggbeta_shape hv)
    (map2_shape_full (bn2CoeffM_shape sq hv)
      (by rw [sumAxes_shape, bn2Ggx_shape hv]) _) _

theorem bn2Ggbeta2_data (sq : α → α) {q : BN2In α} {ax : List Nat} (hv : BN2Valid q ax)
    {j : List Nat} (hj : validIdx (reduceShape q.xRet.shape ax) j) :
    (bn2Ggbeta2 sq q ax).data j = spec2Ggbeta2Val sq q ax j := by
  unfold bn2Ggbeta2 spec2Ggbeta2Val
  rw [map2_data_full (bn2Ggbeta_shape hv)
      (map2_shape_full (bn2CoeffM_shape sq hv) (by rw [sumAxes_shape, bn2Ggx_shape hv]) _) _ hj,
    map2_data_full (bn2CoeffM_shape sq hv) (by rw [sumAxes_shape, bn2Ggx_shape hv]) _ hj,
    bn2Ggbeta_data, bn2CoeffM_data sq hv hj, bn2SumGgx_data hv j]

theorem bn2GxHat2_shape (sq : α → α) {q : BN2In α} {ax : List Nat} (hv : BN2Valid q ax) :
    (bn2GxHat2 sq q ax).shape = q.xRet.shape := by
  unfold bn2GxHat2
  exact map2_shape_full
    (map2_shape_mixed' (bn2Gggamma2_shape sq hv) ((bn2Gout_shape q).trans hv.hgout) _)
    (map2_shape_mixed'
      (map2_shape_full (bn2CoeffM_shape sq hv) ((bn2Ggamma_shape q).trans hv.hggamR) _)
      (bn2Ggx_shape hv) _) _

theorem bn2GxHat2_data (sq : α → α) {q : BN2In α} {ax : List Nat} (hv : BN2Valid q ax)
    {idx : List Nat} (hidx : validIdx q.xRet.shape idx) :
    (bn2GxHat2 sq q ax).data idx = spec2GxHat2Val sq q ax idx := by
  unfold bn2GxHat2 spec2GxHat2Val
  rw [map2_data_full
      (map2_shape_mixed' (bn2Gggamma2_shape sq hv) ((bn2Gout_shape q).trans hv.hgout) _)
      (map2_shape_mixed'
        (map2_shape_full (bn2CoeffM_shape sq hv) ((bn2Ggamma_shape q).trans hv.hggamR) _)
        (bn2Ggx_shape hv) _) _ hidx,
    map2_data_mixed' (bn2Gggamma2_shape sq hv) ((bn2Gout_shape q).trans hv.hgout) _ hidx,
    map2_data_mixed'
      (map2_shape_full (bn2CoeffM_shape sq hv) ((bn2Ggamma_shape q).trans hv.hggamR) _)
      (bn2Ggx_shape hv) _ hidx,
    map2_data_full (bn2CoeffM_shape sq hv) ((bn2Ggamma_shape q).trans hv.hggamR) _
      (validIdx_reduceIdx ax hidx),
    bn2Gggamma2_data sq hv (validIdx_reduceIdx ax hidx), bn2Gout_data,
    bn2CoeffM_data sq hv (validIdx_reduceIdx ax hidx), bn2Ggamma_data, bn2Ggx_data]

theorem bn2SumXHatGxHat2_data (sq : α → α) {q : BN2In α} {ax : List Nat} (hv : BN2Valid q ax)
    {j : List Nat} (hj : validIdx (reduceShape q.xRet.shape ax) j) :
    (sumAxes (map2 (fun u v => u * v) (bn2XHat sq q ax) (bn2GxHat2 sq q ax)) ax).data j
      = axSum q.xRet.shape ax j (fun i => spec2XHatVal sq q ax i * spec2GxHat2Val sq q ax i) := by
  rw [sumAxes_map2_full (bn2XHat_shape sq q ax) (bn2GxHat2_shape sq hv) _ hj]
  apply axSum_congr
  intro k hk
  rw [bn2XHat_data sq q ax (validIdx_mergeIdx hj hk), bn2GxHat2_data sq hv (validIdx_mergeIdx hj hk)]

theorem bn2SumGxHat2_data (sq : α → α) {q : BN2In α} {ax : List Nat} (hv : BN2Valid q ax)
    {j : List Nat} (hj : validIdx (reduceShape q.xRet.shape ax) j) :
    (sumAxes (bn2GxHat2 sq q ax) ax).data j
      = axSum q.xRet.shape ax j (fun i => spec2GxHat2Val sq q ax i) := by
  rw [sumAxes_single (bn2GxHat2_shape sq hv) ax j]
  apply axSum_congr
  intro k hk
  exact bn2GxHat2_data sq hv (validIdx_mergeIdx hj hk)

theorem bn2Gstd2_shape (sq : α → α) {q : BN2In α} {ax : List Nat} (hv : BN2Valid q ax) :
    (bn2Gstd2 sq q ax).shape = reduceShape q.xRet.shape ax := by
  unfold bn2Gstd2
  exact map2_shape_full (by rw [negA_shape, bn2XInvStd_shape])
    (map2_shape_full (bn2R_shape hv)
      (by rw [sumAxes_shape,
        map2_shape_full (bn2XHat_shape sq q ax) (bn2GxHat2_shape sq hv)]) _) _

theorem bn2Gstd2_data (sq : α → α) {q : BN2In α} {ax : List Nat} (hv : BN2Valid q ax)
    {j : List Nat} (hj : validIdx (reduceShape q.xRet.shape ax) j) :
    (bn2Gstd2 sq q ax).data j = spec2Gstd2Val sq q ax j := by
  unfold bn2Gstd2 spec2Gstd2Val
  rw [map2_data_full (by rw [negA_shape, bn2XInvStd_shape])
      (map2_shape_full (bn2R_shape hv)
        (by rw [sumAxes_shape,
          map2_shape_full (bn2XHat_shape sq q ax) (bn2GxHat2_shape sq hv)]) _) _ hj,
    map2_data_full (bn2R_shape hv)
      (by rw [sumAxes_shape,
        map2_shape_full (bn2XHat_shape sq q ax) (bn2GxHat2_shape sq hv)]) _ hj,
    negA_data, bn2XInvStd_data sq q ax hj, bn2R_data hv hj, bn2SumXHatGxHat2_data sq hv hj]

theorem bn2Gmean2_shape (sq : α → α) {q : BN2In α} {ax : List Nat} (hv : BN2Valid q ax) :
    (bn2Gmean2 sq q ax).shape = reduceShape q.xRet.shape ax := by
  unfold bn2Gmean2
  exact map2_shape_full (by rw [negA_shape, bn2XInvStd_shape])
    (by rw [sumAxes_shape, bn2GxHat2_shape sq hv]) _

theorem bn2Gmean2_data (sq : α → α) {q : BN2In α} {ax : List Nat} (hv : BN2Valid q ax)
    {j : List Nat} (hj : validIdx (reduceShape q.xRet.shape ax) j) :
    (bn2Gmean2 sq q ax).data j = spec2Gmean2Val sq q ax j := by
  unfold bn2Gmean2 spec2Gmean2Val
  rw [map2_data_full (by rw [negA_shape, bn2XInvStd_shape])
      (by rw [sumAxes_shape, bn2GxHat2_shape sq hv]) _ hj,
    negA_data, bn2XInvStd_data sq q ax hj, bn2SumGxHat2_data sq hv hj]

theorem bn2Gx2_data (sq : α → α) {q : BN2In α} {ax : List Nat} (hv : BN2Valid q ax)
    {idx : List Nat} (hidx : validIdx q.xRet.shape idx) :
    (bn2Gx2 sq q ax).data idx = spec2Gx2Val sq q ax idx := by
  unfold bn2Gx2 spec2Gx2Val
  rw [map2_data_full
      (map2_shape_mixed' (bn2XInvStd_shape sq q ax) (bn2GxHat2_shape sq hv) _)
      (by rw [smulA_shape,
        map2_shape_mixed' (bn2Gmean2_shape sq hv)
          (map2_shape_mixed (bn2XHat_shape sq q ax) (bn2Gstd2_shape sq hv) _) _]) _ hidx,
    map2_data_mixed' (bn2XInvStd_shape sq q ax) (bn2GxHat2_shape sq hv) _ hidx,
    smulA_data,
    map2_data_mixed' (bn2Gmean2_shape sq hv)
      (map2_shape_mixed (bn2XHat_shape sq q ax) (bn2Gstd2_shape sq hv) _) _ hidx,
    map2_data_mixed (bn2XHat_shape sq q ax) (bn2Gstd2_shape sq hv) _ hidx,
    bn2XInvStd_data sq q ax (validIdx_reduceIdx ax hidx), bn2GxHat2_data sq hv hidx,
    bn2Gmean2_data sq hv (validIdx_reduceIdx ax hidx), bn2XHat_data sq q ax hidx,
    bn2Gstd2_data sq hv (validIdx_reduceIdx ax hidx), bn2InvN_eq]

theorem bn2Ggout2_data (sq : α → α) {q : BN2In α} {ax : List Nat} (hv : BN2Valid q ax)
    {idx : List Nat} (hidx : validIdx q.xRet.shape idx) :
    (bn2Ggout2 sq q ax).data idx = spec2Ggout2Val sq q ax idx := by
  unfold bn2Ggout2 spec2Ggout2Val
  rw [map2_data_full
      (map2_shape_mixed
        (map2_shape_mixed' (bn2Gggamma2_shape sq hv) (bn2XHat_shape sq q ax) _)
        (bn2Ggbeta2_shape sq hv) _)
      (map2_shape_mixed' (bn2Coeff_shape sq hv) (bn2Ggx_shape hv) _) _ hidx,
    map2_data_mixed
      (map2_shape_mixed' (bn2Gggamma2_shape sq hv) (bn2XHat_shape sq q ax) _)
      (bn2Ggbeta2_shape sq hv) _ hidx,
    map2_data_mixed' (bn2Gggamma2_shape sq hv) (bn2XHat_shape sq q ax) _ hidx,
    map2_data_mixed' (bn2Coeff_shape sq hv) (bn2Ggx_shape hv) _ hidx,
    bn2Gggamma2_data sq hv (validIdx_reduceIdx ax hidx), bn2XHat_data sq q ax hidx,
    bn2Ggbeta2_data sq hv (validIdx_reduceIdx ax hidx),
    bn2Coeff_data sq hv (validIdx_reduceIdx ax hidx), bn2Ggx_data]

theorem bn2Ggamma2_data {q : BN2In α} {ax : List Nat} (hv : BN2Valid q ax)
    {j : List Nat} (hj : validIdx (reduceShape q.xRet.shape ax) j) :
    (bn2Ggamma2 q ax).data j = spec2Ggamma2Val q ax j := by
  unfold bn2Ggamma2 spec2Ggamma2Val
  rw [map2_data_full (bn2R_shape hv) ((bn2Gamma_shape q).trans hv.hgammaR) _ hj,
    bn2R_data hv hj, bn2Gamma_data]

theorem castWhenDiff_dtype (a : NdArray α) (d : Dtype) :
    (if a.dtype ≠ d then AsType d a else a).dtype = d := by
  split
  · rfl
  · rename_i h
    exact not_not.mp h

theorem castWhenDiff_data (a : NdArray α) (d : Dtype) :
    (if a.dtype ≠ d then AsType d a else a).data = a.data := by
  split <;> rfl

/-- C4: For every second-order backward invocation, with `x_mean`,
`x_var`, `x_inv_std` and `x_hat` recomputed from the retained inputs
(not read from captured state), `r = sum(gx * ggx, axis, keepdims)`,
`coeff = gamma * x_inv_std`, `coeff_m = coeff / n`, and absent upstream
gradients `ggx`, `gggamma`, `ggbeta` replaced by zero arrays in
`interm_dtype = result_type(gout, x, gamma)`, the produced input
gradients are `gx_out = x_inv_std * gx_hat' + (1/n) * (gmean' + x_hat *
gstd')`, `ggamma_out = r / gamma`, and `ggout_out = gggamma' * x_hat +
ggbeta' + coeff * ggx`, following the intermediate definitions of
`gggamma'`, `ggbeta'`, `gx_hat'`, `gstd'`, `gmean'`, each cast to the
dtype of `x`, `gamma` and `gout` respectively only when different, and
assigned to the input-gradient slots of `x`, `gamma` and `gout` in that
order (the fields `gradX`, `gradGamma`, `gradGout`). -/
theorem batchNormDoubleBackward_spec (sq : α → α) (q : BN2In α) (ax : List Nat)
    (hv : BN2Valid q ax) :
    (∀ idx, validIdx q.xRet.shape idx →
      (BatchNormDoubleBackward sq q ax).gradX.data idx = spec2Gx2Val sq q ax idx) ∧
    (∀ j, validIdx (reduceShape q.xRet.shape ax) j →
      (BatchNormDoubleBackward sq q ax).gradGamma.data j = spec2Ggamma2Val q ax j) ∧
    (∀ idx, validIdx q.xRet.shape idx →
      (BatchNormDoubleBackward sq q ax).gradGout.data idx = spec2Ggout2Val sq q ax idx) ∧
    (BatchNormDoubleBackward sq q ax).gradX.dtype = q.xRet.dtype ∧
    (BatchNormDoubleBackward sq q ax).gradGamma.dtype = q.gammaRet.dtype ∧
    (BatchNormDoubleBackward sq q ax).gradGout.dtype = q.goutRet.dtype := by
  refine ⟨?_, ?_, ?_, castWhenDiff_dtype _ _, castWhenDiff_dtype _ _, castWhenDiff_dtype _ _⟩
  · intro idx hidx
    show (if (bn2Gx2 sq q ax).dtype ≠ q.xRet.dtype then AsType q.xRet.dtype (bn2Gx2 sq q ax)
      else bn2Gx2 sq q ax).data idx = _
    rw [castWhenDiff_data, bn2Gx2_data sq hv hidx]
  · intro j hj
    show (if (bn2Ggamma2 q ax).dtype ≠ q.gammaRet.dtype
        then AsType q.gammaRet.dtype (bn2Ggamma2 q ax) else bn2Ggamma2 q ax).data j = _
    rw [castWhenDiff_data, bn2Ggamma2_data hv hj]
  · intro idx hidx
    show (if (bn2Ggout2 sq q ax).dtype ≠ q.goutRet.dtype
        then AsType q.goutRet.dtype (bn2Ggout2 sq q ax) else bn2Ggout2 sq q ax).data idx = _
    rw [castWhenDiff_data, bn2Ggout2_data sq hv hidx]

/-- Concrete second-order backward input used by the C4 witness (the
`gggamma` upstream gradient absent, the other two present). -/
def q2W : BN2In ℚ :=
  { xRet := xW
    gammaRet := gammaW
    goutRet := outW
    eps := 1 / 100
    ggxOpt := some ⟨.float32, [2, 2], fun _ => 3⟩
    gggammaOpt := none
    ggbetaOpt := some ⟨.float32, [1, 2], fun _ => 5⟩
    gxRet := ⟨.float32, [2, 2], fun _ => 7⟩
    ggammaRet := ⟨.float32, [1, 2], fun _ => 11⟩ }

/-- Witness for C4 at a concrete input. -/
theorem batchNormDoubleBackward_spec_witness :
    validIdx q2W.xRet.shape [1, 1] ∧
    (BatchNormDoubleBackward (fun q : ℚ => q) q2W [0]).gradX.data [1, 1]
      = spec2Gx2Val (fun q : ℚ => q) q2W [0] [1, 1] :=
  ⟨by decide,
    (batchNormDoubleBackward_spec (fun q : ℚ => q) q2W [0]
      ⟨by decide, by decide, by decide, by decide,
        (fun a ha => by cases ha; decide),
        (fun a ha => by cases ha),
        (fun a ha => by cases ha; decide)⟩).1 [1, 1] (by decide)⟩

theorem GetSortedAxes_error {axis : List Int} {ndim : Nat} {e : BNError}
    (h : GetSortedAxes axis ndim = .error e) : e = .axisError := by
  simp only [GetSortedAxes] at h
  split_ifs at h
  all_goals
    first
      | (injection h with h'; exact h'.symm)
      | exact Except.noConfusion h

theorem ResolveAxes_error {axis : Option (List Int)} {ndim : Nat} {e : BNError}
    (h : ResolveAxes axis ndim = .error e) : e = .axisError := by
  unfold ResolveAxes at h
  cases axis with
  | none => exact Except.noConfusion h
  | some a => exact GetSortedAxes_error h

/-- Successful preprocessing: all five inputs of floating kind, axes
resolved, all four auxiliary sizes matching the reduced size. -/
theorem PreprocessBatchNorm_ok {x gamma beta mean var : NdArray α} {axis : Option (List Int)}
    {ax : List Nat}
    (hxf : x.dtype.isFloat = true) (hgf : gamma.dtype.isFloat = true)
    (hbf : beta.dtype.isFloat = true) (hmf : mean.dtype.isFloat = true)
    (hvf : var.dtype.isFloat = true)
    (hax : ResolveAxes axis x.shape.length = .ok ax)
    (hgs : gamma.size = (reduceShape x.shape ax).prod)
    (hbs : beta.size = (reduceShape x.shape ax).prod)
    (hms : mean.size = (reduceShape x.shape ax).prod)
    (hvs : var.size = (reduceShape x.shape ax).prod) :
    PreprocessBatchNorm x gamma beta mean var axis =
      .ok ⟨ReshapeOrIdentity gamma (reduceShape x.shape ax),
        ReshapeOrIdentity beta (reduceShape x.shape ax),
        ReshapeOrIdentity mean (reduceShape x.shape ax),
        ReshapeOrIdentity var (reduceShape x.shape ax), ax⟩ := by
  unfold PreprocessBatchNorm CheckBatchNormSupportedKind
  simp [hxf, hgf, hbf, hmf, hvf, hax, hgs, hbs, hms, hvs]

/-- With all five inputs of floating kind, the preprocessor reduces to
the axis resolution followed by the four size checks. -/
theorem PreprocessBatchNorm_allFloat {x gamma beta mean var : NdArray α}
    {axis : Option (List Int)}
    (hxf : x.dtype.isFloat = true) (hgf : gamma.dtype.isFloat = true)
    (hbf : beta.dtype.isFloat = true) (hmf : mean.dtype.isFloat = true)
    (hvf : var.dtype.isFloat = true) :
    PreprocessBatchNorm x gamma beta mean var axis =
      match ResolveAxes axis x.shape.length with
      | .error e => .error e
      | .ok sortedAxis =>
        if gamma.size ≠ (reduceShape x.shape sortedAxis).prod then .error .dimensionError
        else if beta.size ≠ (reduceShape x.shape sortedAxis).prod then .error .dimensionError
        else if mean.size ≠ (reduceShape x.shape sortedAxis).prod then .error .dimensionError
        else if var.size ≠ (reduceShape x.shape sortedAxis).prod then .error .dimensionError
        else .ok ⟨ReshapeOrIdentity gamma (reduceShape x.shape sortedAxis),
          ReshapeOrIdentity beta (reduceShape x.shape sortedAxis),
          ReshapeOrIdentity mean (reduceShape x.shape sortedAxis),
          ReshapeOrIdentity var (reduceShape x.shape sortedAxis), sortedAxis⟩ := by
  unfold PreprocessBatchNorm CheckBatchNormSupportedKind
  simp [hxf, hgf, hbf, hmf, hvf]

/-- With some non-floating input, the preprocessor raises the dtype
error. -/
theorem PreprocessBatchNorm_nonfloat {x gamma beta mean var : NdArray α}
    {axis : Option (List Int)}
    (h : ¬(x.dtype.isFloat = true ∧ gamma.dtype.isFloat = true ∧ beta.dtype.isFloat = true ∧
      mean.dtype.isFloat = true ∧ var.dtype.isFloat = true)) :
    PreprocessBatchNorm x gamma beta mean var axis = .error .dtypeError := by
  by_cases hxf : x.dtype.isFloat = true <;>
    by_cases hgf : gamma.dtype.isFloat = true <;>
      by_cases hbf : beta.dtype.isFloat = true <;>
        by_cases hmf : mean.dtype.isFloat = true <;>
          by_cases hvf : var.dtype.isFloat = true <;>
            first
              | (simp [PreprocessBatchNorm, CheckBatchNormSupportedKind, hxf, hgf, hbf, hmf,
                  hvf]; done)
              | exact absurd ⟨hxf, hgf, hbf, hmf, hvf⟩ h

/-- With all five inputs floating and the axes resolved, the
preprocessor reduces to the four size checks. -/
theorem PreprocessBatchNorm_sizeCheck {x gamma beta mean var : NdArray α}
    {axis : Option (List Int)} {ax : List Nat}
    (hxf : x.dtype.isFloat = true) (hgf : gamma.dtype.isFloat = true)
    (hbf : beta.dtype.isFloat = true) (hmf : mean.dtype.isFloat = true)
    (hvf : var.dtype.isFloat = true)
    (hax : ResolveAxes axis x.shape.length = .ok ax) :
    PreprocessBatchNorm x gamma beta mean var axis =
      (if gamma.size ≠ (reduceShape x.shape ax).prod then .error .dimensionError
        else if beta.size ≠ (reduceShape x.shape ax).prod then .error .dimensionError
        else if mean.size ≠ (reduceShape x.shape ax).prod then .error .dimensionError
        else if var.size ≠ (reduceShape x.shape ax).prod then .error .dimensionError
        else .ok ⟨ReshapeOrIdentity gamma (reduceShape x.shape ax),
          ReshapeOrIdentity beta (reduceShape x.shape ax),
          ReshapeOrIdentity mean (reduceShape x.shape ax),
          ReshapeOrIdentity var (reduceShape x.shape ax), ax⟩) := by
  rw [PreprocessBatchNorm_allFloat hxf hgf hbf hmf hvf, hax]

/-- C7: The preprocessor raises a dtype error if and only if at least one
of the five inputs `x, gamma, beta, mean, var` is of non-floating kind;
otherwise (under a resolvable axis selection) it raises a dimension
error if and only if one of `gamma, beta, mean, var` has total element
count different from the product of the reduced shape; otherwise it
returns the four auxiliaries reshaped to the reduced shape together with
the sorted axes. -/
theorem preprocessBatchNorm_spec (x gamma beta mean var : NdArray α)
    (axis : Option (List Int)) :
    ((PreprocessBatchNorm x gamma beta mean var axis = .error .dtypeError) ↔
      ¬(x.dtype.isFloat = true ∧ gamma.dtype.isFloat = true ∧ beta.dtype.isFloat = true ∧
        mean.dtype.isFloat = true ∧ var.dtype.isFloat = true)) ∧
    (∀ ax, ResolveAxes axis x.shape.length = .ok ax →
      ((PreprocessBatchNorm x gamma beta mean var axis = .error .dimensionError) ↔
        ((x.dtype.isFloat = true ∧ gamma.dtype.isFloat = true ∧ beta.dtype.isFloat = true ∧
            mean.dtype.isFloat = true ∧ var.dtype.isFloat = true) ∧
          ¬(gamma.size = (reduceShape x.shape ax).prod ∧
            beta.size = (reduceShape x.shape ax).prod ∧
            mean.size = (reduceShape x.shape ax).prod ∧
            var.size = (reduceShape x.shape ax).prod)))) ∧
    (∀ ax, ResolveAxes axis x.shape.length = .ok ax →
      x.dtype.isFloat = true → gamma.dtype.isFloat = true → beta.dtype.isFloat = true →
      mean.dtype.isFloat = true → var.dtype.isFloat = true →
      gamma.size = (reduceShape x.shape ax).prod → beta.size = (reduceShape x.shape ax).prod →
      mean.size = (reduceShape x.shape ax).prod → var.size = (reduceShape x.shape ax).prod →
      PreprocessBatchNorm x gamma beta mean var axis =
        .ok ⟨ReshapeOrIdentity gamma (reduceShape x.shape ax),
          ReshapeOrIdentity beta (reduceShape x.shape ax),
          ReshapeOrIdentity mean (reduceShape x.shape ax),
          ReshapeOrIdentity var (reduceShape x.shape ax), ax⟩) := by
  refine ⟨?_, ?_, ?_⟩
  · by_cases h5 : x.dtype.isFloat = true ∧ gamma.dtype.isFloat = true ∧
        beta.dtype.isFloat = true ∧ mean.dtype.isFloat = true ∧ var.dtype.isFloat = true
    · obtain ⟨hxf, hgf, hbf, hmf, hvf⟩ := h5
      rcases hres : ResolveAxes axis x.shape.length with e | ax
      · have he := ResolveAxes_error hres
        subst he
        rw [PreprocessBatchNorm_allFloat hxf hgf hbf hmf hvf, hres]
        simp [hxf, hgf, hbf, hmf, hvf]
      · rw [PreprocessBatchNorm_sizeCheck hxf hgf hbf hmf hvf hres]
        split_ifs <;> simp [hxf, hgf, hbf, hmf, hvf]
    · rw [PreprocessBatchNorm_nonfloat h5]
      simp [h5]
  · intro ax hax
    by_cases h5 : x.dtype.isFloat = true ∧ gamma.dtype.isFloat = true ∧
        beta.dtype.isFloat = true ∧ mean.dtype.isFloat = true ∧ var.dtype.isFloat = true
    · obtain ⟨hxf, hgf, hbf, hmf, hvf⟩ := h5
      rw [PreprocessBatchNorm_sizeCheck hxf hgf hbf hmf hvf hax]
      split_ifs with h1 h2 h3 h4 <;> simp_all
    · rw [PreprocessBatchNorm_nonfloat h5]
      simp [h5]
  · intro ax hax hxf hgf hbf hmf hvf hgs hbs hms hvs
    exact PreprocessBatchNorm_ok hxf hgf hbf hmf hvf hax hgs hbs hms hvs

/-- A non-floating concrete input used by the error-path witnesses. -/
def xIntW : NdArray ℚ := ⟨.int32, [2, 2], fun _ => 0⟩

/-- Witness for C7 at a concrete input. -/
theorem preprocessBatchNorm_spec_witness :
    (PreprocessBatchNorm xIntW gammaW betaW meanW varW none = .error .dtypeError) ↔
      ¬(xIntW.dtype.isFloat = true ∧ gammaW.dtype.isFloat = true ∧ betaW.dtype.isFloat = true ∧
        meanW.dtype.isFloat = true ∧ varW.dtype.isFloat = true) :=
  (preprocessBatchNorm_spec xIntW gammaW betaW meanW varW none).1

/-- C8: For every call to `batch_norm` whose preprocessing raises an
error (dtype, dimension, or axis error), the error surfaces before any
observable mutation: `running_mean` and `running_var` are left exactly
as they were before the call, and no state is captured (the returned
result is the error, carrying no output and no state). -/
theorem batchNorm_error_no_mutation (sq : α → α) (x gamma beta rm rv : NdArray α)
    (eps decay : α) (axis : Option (List Int)) (e : BNError)
    (herr : PreprocessBatchNorm x gamma beta rm rv axis = .error e) :
    (BatchNorm sq x gamma beta rm rv eps decay axis).1 = .error e ∧
    (BatchNorm sq x gamma beta rm rv eps decay axis).2.1 = rm ∧
    (BatchNorm sq x gamma beta rm rv eps decay axis).2.2 = rv := by
  unfold BatchNorm
  rw [herr]
  exact ⟨rfl, rfl, rfl⟩

/-- Witness for C8 at a concrete erroring input. -/
theorem batchNorm_error_no_mutation_witness :
    (PreprocessBatchNorm xIntW gammaW betaW meanW varW none = .error .dtypeError) ∧
    (BatchNorm (fun q : ℚ => q) xIntW gammaW betaW meanW varW (1 / 100) (9 / 10)
        none).2.1 = meanW :=
  ⟨rfl,
    (batchNorm_error_no_mutation (fun q : ℚ => q) xIntW gammaW betaW meanW varW (1 / 100)
      (9 / 10) none .dtypeError rfl).2.1⟩

/-- C5: For every valid input, `fixed_batch_norm` computes in
`interm_dtype = result_type(x, gamma, beta, mean, var)` and performs no
state capture, no running-statistic update, and no autograd-node
registration (the op's type carries no state slot and no running
statistics, and all model values are immutable); in particular with
`gamma = 1` and `beta = 0` its output equals
`(x − mean) / sqrt(var + eps)` exactly in the idealised arithmetic, and
no input array is mutated. -/
theorem fixedBatchNorm_spec (sq : α → α) (x gamma beta mean var : NdArray α) (eps : α)
    (axis : Option (List Int)) (ax : List Nat)
    (hxf : x.dtype.isFloat = true) (hgf : gamma.dtype.isFloat = true)
    (hbf : beta.dtype.isFloat = true) (hmf : mean.dtype.isFloat = true)
    (hvf : var.dtype.isFloat = true)
    (hax : ResolveAxes axis x.shape.length = .ok ax)
    (hgs : gamma.size = (reduceShape x.shape ax).prod)
    (hbs : beta.size = (reduceShape x.shape ax).prod)
    (hm : mean.shape = reduceShape x.shape ax)
    (hv : var.shape = reduceShape x.shape ax)
    (hg1 : ∀ i, gamma.data i = 1) (hb0 : ∀ i, beta.data i = 0) :
    ∃ res : NdArray α,
      FixedBatchNorm sq x gamma beta mean var eps axis = .ok res ∧
      res.dtype = x.dtype ∧ res.shape = x.shape ∧
      ∀ idx, validIdx x.shape idx →
        res.data idx = (x.data idx - mean.data (reduceIdx ax idx)) /
          sq (var.data (reduceIdx ax idx) + eps) := by
  have hms : mean.size = (reduceShape x.shape ax).prod := by
    show mean.shape.prod = _
    rw [hm]
  have hvs : var.size = (reduceShape x.shape ax).prod := by
    show var.shape.prod = _
    rw [hv]
  have hpre := PreprocessBatchNorm_ok hxf hgf hbf hmf hvf hax hgs hbs hms hvs
  unfold FixedBatchNorm
  rw [hpre]
  refine ⟨_, rfl, rfl, rfl, ?_⟩
  intro idx hidx
  show (ApplyBatchNorm sq x (ReshapeOrIdentity gamma (reduceShape x.shape ax))
      (ReshapeOrIdentity beta (reduceShape x.shape ax))
      (ReshapeOrIdentity mean (reduceShape x.shape ax))
      (ReshapeOrIdentity var (reduceShape x.shape ax)) eps (EmptyLike x) _).1.data idx = _
  rw [ReshapeOrIdentity_eq_self hm, ReshapeOrIdentity_eq_self hv]
  rw [ApplyBatchNorm_out_data sq x _ _ mean var (EmptyLike x) eps ax _
    (ReshapeOrIdentity_shape gamma _) (ReshapeOrIdentity_shape beta _) hm hv hidx]
  rw [ReshapeOrIdentity_data_const hg1 _ (reduceIdx ax idx),
    ReshapeOrIdentity_data_const hb0 _ (reduceIdx ax idx)]
  rw [mul_one, add_zero, mul_one_div]

/-- Witness for C5 at a concrete input. -/
theorem fixedBatchNorm_spec_witness :
    (xW.dtype.isFloat = true ∧ ResolveAxes none xW.shape.length = .ok [0]) ∧
    (∃ res : NdArray ℚ,
      FixedBatchNorm (fun q : ℚ => q) xW gammaW betaW meanW varW (1 / 100) none = .ok res ∧
      res.dtype = xW.dtype ∧ res.shape = xW.shape ∧
      ∀ idx, validIdx xW.shape idx →
        res.data idx = (xW.data idx - meanW.data (reduceIdx [0] idx)) /
          (fun q : ℚ => q) (varW.data (reduceIdx [0] idx) + 1 / 100)) :=
  ⟨⟨by decide, rfl⟩,
    fixedBatchNorm_spec (fun q : ℚ => q) xW gammaW betaW meanW varW (1 / 100) none [0]
      (by decide) (by decide) (by decide) (by decide) (by decide) rfl
      (by decide) (by decide) (by decide) (by decide) (fun i => rfl) (fun i => rfl)⟩

end Claims

end ChainerX
